import Mathlib

/-!
Verification development for the docker-imagemagick-api repository.

The repository is a Node/Express HTTP wrapper around the ImageMagick
command-line tool.  This file gives a shallow embedding of the parts of the
code that the checked claims are about:

* `src/utils/response.js` — validators and response envelopes;
* `src/utils/fileHandler.js` (appended in `src/utils/imagemagick.js`) —
  temp-file path generation, cleanup, `getExtension`;
* `src/utils/imagemagick.js` — `executeCommand` and the per-operation
  command builders;
* `src/middleware/auth.js` and `src/middleware/errorHandler.js`;
* `src/server.js` — the middleware ordering around `GET /health`;
* the route handlers for rotate, resize, convert, optimize and crop.

JavaScript request fields are modelled as `Option String` (`none` =
`undefined`/`null`); JS numbers that can be `null`/`NaN` are modelled as
`Option Int` where `none` covers both `null` and `NaN` (they are
observationally equal in every expression the handlers evaluate: both are
falsy and neither is ever interpolated into a command).  Subprocess
execution is modelled by an oracle `ExecEnv` mapping the exact command
string the code builds to an exit code and captured output.  Filesystem
writes and reads are modelled by failure oracles, since their outcomes are
environment-dependent.
-/

/-- JSON-ish values appearing in response bodies: the handlers only ever put
numbers, strings, or `null` (the JSON serialization of `NaN`) in them. -/
inductive JValue where
  | num (n : Int)
  | str (s : String)
  | nullv
deriving DecidableEq, Repr

/-- An uploaded file as the handlers see it (a multer memory-storage file).
Only the `mimetype` field is inspected by the modelled code paths. -/
structure UploadedFile where
  mimetype : String
deriving DecidableEq, Repr

/-- A JavaScript `Error` object as inspected by the global error handler:
`message`, and the optional `code` / `name` / `statusCode` fields that
multer errors carry. -/
structure JsError where
  message : String
  code : Option String
  name : Option String
  statusCode : Option Nat
deriving DecidableEq, Repr

/-- Plain `new Error(message)`: no `code`, `name` defaults (not
`MulterError`), no `statusCode`. -/
def mkError (message : String) : JsError :=
  ⟨message, none, none, none⟩

/-- The HTTP response finally sent to the client.  `json` is a status plus a
JSON object body (an ordered field list).  `binary` records an invocation of
`binaryResponse` from `src/utils/response.js` with its arguments (metadata
object, format, filename); no modelled claim inspects the binary header
construction itself. -/
inductive HandlerResponse where
  | json (status : Nat) (body : List (String × JValue))
  | binary (metadata : List (String × JValue)) (format : String) (filename : String)
deriving DecidableEq, Repr

/-- Result of running one subprocess: exit code and captured stdout/stderr. -/
structure SubprocResult where
  exitCode : Nat
  stdout : String
  stderr : String
deriving DecidableEq, Repr

/-- Oracle describing the environment: what each command, identified by its
exact command-line string, does when executed. -/
abbrev ExecEnv := String → SubprocResult

/-- Message of the error with which Node's promisified `child_process.exec`
rejects on a non-zero exit: `Command failed: <cmd>` followed, when stderr is
non-empty, by a newline and the captured stderr (Node constructs the message
this way; the spec likewise notes that the failure `wraps the tool's
diagnostic text`). -/
def nodeExecErrorMessage (cmd : String) (r : SubprocResult) : String :=
  "Command failed: " ++ cmd ++ (if r.stderr = "" then "" else "\n" ++ r.stderr)

/-- Embedding of `executeCommand` from `src/utils/imagemagick.js`: run the
command; on exit 0 return stdout/stderr (stderr, if non-empty, is only
logged server-side via `console.warn`); otherwise throw
`ImageMagick command failed: <error.message>`. -/
def executeCommand (env : ExecEnv) (cmd : String) : Except JsError (String × String) :=
  let r := env cmd
  if r.exitCode = 0 then Except.ok (r.stdout, r.stderr)
  else Except.error (mkError ("ImageMagick command failed: " ++ nodeExecErrorMessage cmd r))

/-- Embedding of the global error handler middleware
(`src/middleware/errorHandler.js`).  `maxFileSizeEnv` is the raw
`MAX_FILE_SIZE` environment variable. -/
def errorHandler (maxFileSizeEnv : Option String) (err : JsError) : HandlerResponse :=
  if err.code = some ("LIMIT_FILE_SIZE") then
    HandlerResponse.json 413 [("success", JValue.num 0),
      ("errormessage", JValue.str ("File too large. Maximum size is " ++ maxFileSizeEnv.getD ("52428800") ++ " bytes (50 MB)."))]
  else if err.code = some ("LIMIT_UNEXPECTED_FILE") then
    HandlerResponse.json 400 [("success", JValue.num 0),
      ("errormessage", JValue.str ("Unexpected file field. Please use \"image\" as the field name."))]
  else if err.name = some ("MulterError") then
    HandlerResponse.json 400 [("success", JValue.num 0),
      ("errormessage", JValue.str ("Upload error: " ++ err.message))]
  else
    HandlerResponse.json (err.statusCode.getD 500) [("success", JValue.num 0),
      ("errormessage", JValue.str (if err.message = "" then "Internal server error" else err.message))]

/-- JS `string.toLowerCase()` (character-wise, as the code only lowercases
ASCII keywords). -/
def jsToLower (s : String) : String :=
  String.mk (s.data.map Char.toLower)

/-- JS `string.trim()`: strip whitespace from both ends. -/
def jsTrim (s : String) : String :=
  String.mk (((s.data.dropWhile (fun c => c.isWhitespace)).reverse.dropWhile
    (fun c => c.isWhitespace)).reverse)

/-- JS `string.split(sep)` for a one-character separator, on character
lists (splitting `a.b.` at dots gives `[a, b, empty]`, like JS). -/
def splitAtChar (sep : Char) : List Char → List (List Char)
  | [] => [[]]
  | c :: cs =>
    let r := splitAtChar sep cs
    if c = sep then [] :: r
    else
      match r with
      | h :: t => (c :: h) :: t
      | [] => [[c]]

/-- JS truthiness of an optional string value: `undefined`/`null` and the
empty string are falsy, every other string is truthy. -/
def jsTruthy : Option String → Bool
  | none => false
  | some s => s != ""

/-- JS truthiness of an optional number (`none` = `null`/`NaN`, both falsy;
`0` is falsy). -/
def jsNumTruthy : Option Int → Bool
  | none => false
  | some n => n != 0

/-- String interpolation of an optional JS number (only ever applied on
paths where the value is an actual number). -/
def jsNumToString : Option Int → String
  | none => "NaN"
  | some n => toString n

/-- JSON serialization of an optional JS number (`JSON.stringify(NaN)` is
`null`). -/
def jsNumToJValue : Option Int → JValue
  | none => JValue.nullv
  | some n => JValue.num n

/-! ### JavaScript numeric parsing

`validateNumeric` uses `Number(string)` and the handlers use
`parseInt(string, 10)`.  `jsNumber` models `Number` on trimmed decimal
literals (optionally signed, with fraction and exponent), `Infinity`, and
unsigned `0x`/`0o`/`0b` radix literals; `jsParseInt` models `parseInt` with
radix 10 (leading whitespace skipped, optional sign, longest leading digit
run, `NaN` when there is none). -/

/-- Result of JS `Number(...)` when it is a number: a finite rational or a
signed infinity. -/
inductive JsNum where
  | fin (q : Rat)
  | inf (neg : Bool)
deriving DecidableEq, Repr

/-- Accumulate a leading run of decimal digits, returning the value, the
number of digits consumed, and the rest of the input. -/
def digitsRunAux (acc count : Nat) : List Char → Nat × Nat × List Char
  | [] => (acc, count, [])
  | c :: cs =>
    if c.isDigit then digitsRunAux (10 * acc + (c.toNat - 48)) (count + 1) cs
    else (acc, count, c :: cs)

/-- The rational `m / 10 ^ fd * 10 ^ exp` built with the core constructors
(which normalize), keeping the definition kernel-computable. -/
def ratOfParts (m fd : Nat) (exp : Int) : Rat :=
  match exp with
  | Int.ofNat e => mkRat ((m : Int) * (10 : Int) ^ e) (10 ^ fd)
  | Int.negSucc e => mkRat (m : Int) (10 ^ fd * 10 ^ (e + 1))

/-- Parse the optional exponent tail of a decimal literal and combine it
with the already-parsed mantissa `m / 10 ^ fd`; the whole rest of the input
must be consumed. -/
def parseExpTail (m fd : Nat) : List Char → Option Rat
  | [] => some (ratOfParts m fd 0)
  | c :: cs =>
    if c = 'e' ∨ c = 'E' then
      let (sgn, cs2) : Int × List Char :=
        match cs with
        | '+' :: t => (1, t)
        | '-' :: t => (-1, t)
        | t => (1, t)
      let (ev, ec, r) := digitsRunAux 0 0 cs2
      if ec = 0 ∨ r ≠ [] then none
      else some (ratOfParts m fd (sgn * (ev : Int)))
    else none

/-- Parse an unsigned decimal literal body (digits, optional fraction,
optional exponent); `none` is `NaN`. -/
def parseDecBody (l : List Char) : Option Rat :=
  let (ip, ic, r1) := digitsRunAux 0 0 l
  match r1 with
  | '.' :: r2 =>
    let (fp, fc, r3) := digitsRunAux 0 0 r2
    if ic = 0 ∧ fc = 0 then none
    else parseExpTail (ip * 10 ^ fc + fp) fc r3
  | _ =>
    if ic = 0 then none
    else parseExpTail ip 0 r1

/-- Digit value in a given radix, if valid. -/
def radixDigit? (radix : Nat) (c : Char) : Option Nat :=
  let v : Option Nat :=
    if c.isDigit then some (c.toNat - 48)
    else if 'a' ≤ c ∧ c ≤ 'f' then some (c.toNat - 87)
    else if 'A' ≤ c ∧ c ≤ 'F' then some (c.toNat - 55)
    else none
  match v with
  | some d => if d < radix then some d else none
  | none => none

/-- Parse a whole string of radix digits (at least one, all consumed). -/
def radixRunAux (radix acc : Nat) (count : Nat) : List Char → Option Nat
  | [] => if count = 0 then none else some acc
  | c :: cs =>
    match radixDigit? radix c with
    | some d => radixRunAux radix (radix * acc + d) (count + 1) cs
    | none => none

/-- Parse a signless body after an optional sign: `Infinity` or a decimal
literal. -/
def afterSignBody (neg : Bool) (l : List Char) : Option JsNum :=
  if l = ("Infinity").data then some (JsNum.inf neg)
  else (parseDecBody l).map (fun q => JsNum.fin (if neg then Rat.neg q else q))

/-- Parse an optionally signed decimal literal or `Infinity`. -/
def decSigned (l : List Char) : Option JsNum :=
  match l with
  | '-' :: r => afterSignBody true r
  | '+' :: r => afterSignBody false r
  | r => afterSignBody false r

/-- Parse the body of a JS `Number(...)` conversion of a non-empty trimmed
string. -/
def jsNumBody (l : List Char) : Option JsNum :=
  match l with
  | '0' :: c :: rest =>
    if c = 'x' ∨ c = 'X' then (radixRunAux 16 0 0 rest).map (fun n => JsNum.fin (mkRat (n : Int) 1))
    else if c = 'o' ∨ c = 'O' then (radixRunAux 8 0 0 rest).map (fun n => JsNum.fin (mkRat (n : Int) 1))
    else if c = 'b' ∨ c = 'B' then (radixRunAux 2 0 0 rest).map (fun n => JsNum.fin (mkRat (n : Int) 1))
    else decSigned l
  | _ => decSigned l

/-- Model of JS `Number(string)`: `none` is `NaN`; the empty (or
whitespace-only) string converts to `0`. -/
def jsNumber (s : String) : Option JsNum :=
  let t := jsTrim s
  if t = "" then some (JsNum.fin 0) else jsNumBody t.data

/-- Model of JS `parseInt(string, 10)`. -/
def jsParseInt (s : String) : Option Int :=
  let l := s.data.dropWhile (fun c => c.isWhitespace)
  let (neg, l2) : Bool × List Char :=
    match l with
    | '-' :: t => (true, t)
    | '+' :: t => (false, t)
    | t => (false, t)
  let (v, n, _) := digitsRunAux 0 0 l2
  if n = 0 then none else some (if neg then -(v : Int) else (v : Int))

/-- JS `x < b` for an optional integer `x` (`NaN < b` is false). -/
def jsLtB : Option Int → Int → Bool
  | none, _ => false
  | some a, b => a < b

/-- JS `x > b` for an optional integer `x` (`NaN > b` is false). -/
def jsGtB : Option Int → Int → Bool
  | none, _ => false
  | some a, b => a > b

/-- JS `degrees ∈ list` via `Array.includes` (`NaN` is never found by the
handlers' integer lists). -/
def jsIntMem : Option Int → List Int → Bool
  | none, _ => false
  | some n, l => l.contains n

/-- Condition under which `validateNumeric` from `src/utils/response.js`
throws for a present value: `isNaN(Number(v)) || Number(v) < 0`. -/
def numFailsValidation (s : String) : Bool :=
  match jsNumber s with
  | none => true
  | some (JsNum.fin q) => decide (q.num < 0)
  | some (JsNum.inf neg) => neg

/-! ### Validators from `src/utils/response.js` -/

/-- Embedding of `validateParams`: collect the required keys whose value is
falsy and throw listing them. -/
def validateParams (params : List (String × Option String)) (required : List String) :
    Except JsError Unit :=
  let missing := required.filter (fun k => !(jsTruthy ((params.lookup k).getD none)))
  if missing.isEmpty then Except.ok ()
  else Except.error (mkError ("Missing required parameters: " ++ String.intercalate (", ") missing))

/-- Embedding of `validateNumeric`: for each listed key whose value is
present (not `undefined`/`null`), throw unless `Number(value)` is a
non-negative number. -/
def validateNumeric (params : List (String × Option String)) : List String → Except JsError Unit
  | [] => Except.ok ()
  | k :: ks =>
    match (params.lookup k).getD none with
    | some v =>
      if numFailsValidation v then
        Except.error (mkError ("Parameter \x27" ++ k ++ "\x27 must be a positive number"))
      else validateNumeric params ks
    | none => validateNumeric params ks

/-- The MIME-type allow-list from `validateFile`. -/
def validMimeTypes : List String :=
  [("image/jpeg"), ("image/png"), ("image/gif"), ("image/webp"),
   ("image/bmp"), ("image/tiff"), ("image/svg+xml")]

/-- Embedding of `validateFile`: the upload must be present and its MIME
type on the allow-list; on success the handler goes on using the file. -/
def validateFile : Option UploadedFile → Except JsError UploadedFile
  | none =>
      Except.error (mkError ("No image file provided. Please upload an image using the \"image\" field."))
  | some f =>
      if f.mimetype ∈ validMimeTypes then Except.ok f
      else Except.error (mkError ("Invalid file type. Supported formats: " ++ String.intercalate (", ") validMimeTypes))

/-- Embedding of `successResponse`: `success: 1`, the base64 image, then the
metadata fields. -/
def successResponse (b64 : String) (metadata : List (String × JValue)) : List (String × JValue) :=
  [("success", JValue.num 1), ("image", JValue.str b64)] ++ metadata

/-! ### Temp-file utilities from `src/utils/fileHandler.js` -/

/-- The scratch directory (`path.join(dirname, ../../tmpfiles)`), modelled
by its directory name. -/
def TEMP_DIR : String := "tmpfiles"

/-- Embedding of `generateTempPath`: a random unique id (supplied here as
the `uuid` argument) plus the extension. -/
def generateTempPath (uuid ext : String) : String :=
  TEMP_DIR ++ "/" ++ uuid ++ "." ++ ext

/-- Deletion attempts made by one `deleteFile` call: exactly one `unlink`
attempt for the path (its own failure is caught and only logged, so
`deleteFile` never rejects; a positive delay only schedules the same single
attempt later). -/
def deleteFileAttempts (filePath : String) : List String := [filePath]

/-- Deletion attempts made by `cleanupFiles`: one `deleteFile` call per
path, in order.  `cleanupFiles` never rejects. -/
def cleanupFilesAttempts (filePaths : List String) : List String :=
  (filePaths.map deleteFileAttempts).flatten

/-- The MIME-type-to-extension map in `getExtension`. -/
def mimeMap : List (String × String) :=
  [("image/jpeg", "jpg"), ("image/png", "png"), ("image/gif", "gif"),
   ("image/webp", "webp"), ("image/bmp", "bmp"), ("image/tiff", "tiff"),
   ("image/svg+xml", "svg")]

/-- Embedding of `getExtension`: a falsy argument yields `png`; an argument
containing a dot is treated as a filename and its final dot-suffix is
returned lowercased; otherwise the argument is looked up as a MIME type,
defaulting to `png`. -/
def getExtension (s : String) : String :=
  if s = "" then "png"
  else if s.data.contains ('.') then jsToLower (String.mk ((splitAtChar '.' s.data).getLastD []))
  else ((mimeMap.lookup s).getD ("png"))

/-- Modelled from the spec: `getMimeType` is imported from
`utils/fileHandler` by the route handlers and by `binaryResponse`, but its
definition is absent from the provided sources (the shown `fileHandler`
revision does not export it).  Per the spec it returns `the MIME type for
the output format`; no checked claim depends on its values. -/
def getMimeType (ext : String) : String :=
  (([("jpg", "image/jpeg"), ("jpeg", "image/jpeg"), ("png", "image/png"),
     ("gif", "image/gif"), ("webp", "image/webp"), ("bmp", "image/bmp"),
     ("tiff", "image/tiff"), ("svg", "image/svg+xml")].lookup ext).getD ("application/octet-stream"))

/-- Helper for `String.replace` with the regex matching a final dot
extension: consume (in reversed input) one-or-more non-dot characters then a
dot, returning the reversed remainder; `seen` records whether at least one
non-dot character was consumed. -/
def remExtRev : List Char → Bool → Option (List Char)
  | [], _ => none
  | c :: cs, seen =>
    if c = '.' then (if seen then some cs else none)
    else remExtRev cs true

/-- Embedding of `inputPath.replace` with a regex replacing the final
`.extension` (one or more non-dot characters after the last dot, anchored at
the end) by `r`; when the regex does not match, the string is unchanged. -/
def replaceLastExt (s r : String) : String :=
  match remExtRev s.data.reverse false with
  | some stemRev => String.mk stemRev.reverse ++ r
  | none => s

/-! ### ImageMagick command builders from `src/utils/imagemagick.js`

Each builder returns the list of commands it attempted to execute (empty or
a singleton) together with the outcome of the execution. -/

/-- Embedding of `resizeImage`: choose the geometry from the truthiness of
width/height (both: exact `WxH!`; width only: `Wx`; height only: `xH`;
neither: throw), then run one `magick` invocation targeting
`format:outputPath`. -/
def resizeImage (env : ExecEnv) (inputPath outputPath : String)
    (width height : Option Int) (format : String) : List String × Except JsError Unit :=
  let geometry : Option String :=
    if jsNumTruthy width ∧ jsNumTruthy height then
      some (jsNumToString width ++ "x" ++ jsNumToString height ++ "!")
    else if jsNumTruthy width then some (jsNumToString width ++ "x")
    else if jsNumTruthy height then some ("x" ++ jsNumToString height)
    else none
  match geometry with
  | none => ([], Except.error (mkError ("At least width or height must be specified")))
  | some g =>
    let cmd := "magick \"" ++ inputPath ++ "\" -resize " ++ g ++ " \"" ++ format ++ ":" ++ outputPath ++ "\""
    ([cmd], (executeCommand env cmd).map (fun _ => ()))

/-- Embedding of `rotateImage`. -/
def rotateImage (env : ExecEnv) (inputPath outputPath : String)
    (degrees : Int) (format : String) : List String × Except JsError Unit :=
  let cmd := "magick \"" ++ inputPath ++ "\" -rotate " ++ toString degrees ++ " \"" ++ format ++ ":" ++ outputPath ++ "\""
  ([cmd], (executeCommand env cmd).map (fun _ => ()))

/-- Embedding of `flipImage` (`horizontal` mirrors left-right via `-flop`,
anything else top-bottom via `-flip`). -/
def flipImage (env : ExecEnv) (inputPath outputPath : String)
    (direction : String) (format : String) : List String × Except JsError Unit :=
  let operation := if direction = "horizontal" then "-flop" else "-flip"
  let cmd := "magick \"" ++ inputPath ++ "\" " ++ operation ++ " \"" ++ format ++ ":" ++ outputPath ++ "\""
  ([cmd], (executeCommand env cmd).map (fun _ => ()))

/-- Embedding of `convertFormat`: `-quality` is appended only when a quality
was given and the target format is `jpg`, `jpeg` or `webp`. -/
def convertFormat (env : ExecEnv) (inputPath outputPath format : String)
    (quality : Option Int) : List String × Except JsError Unit :=
  let c1 := "magick \"" ++ inputPath ++ "\""
  let c2 :=
    if quality ≠ none ∧ (format = "jpg" ∨ format = "jpeg" ∨ format = "webp") then
      c1 ++ " -quality " ++ jsNumToString quality
    else c1
  let cmd := c2 ++ " \"" ++ format ++ ":" ++ outputPath ++ "\""
  ([cmd], (executeCommand env cmd).map (fun _ => ()))

/-- Embedding of `optimizeImage`. -/
def optimizeImage (env : ExecEnv) (inputPath outputPath : String)
    (quality : Int) (format : String) : List String × Except JsError Unit :=
  let cmd := "magick \"" ++ inputPath ++ "\" -strip -quality " ++ toString quality ++ " \"" ++ format ++ ":" ++ outputPath ++ "\""
  ([cmd], (executeCommand env cmd).map (fun _ => ()))

/-- Embedding of `cropImage`. -/
def cropImage (env : ExecEnv) (inputPath outputPath : String)
    (width height x y : Int) (format : String) : List String × Except JsError Unit :=
  let cmd := "magick \"" ++ inputPath ++ "\" -crop " ++ toString width ++ "x" ++ toString height
    ++ "+" ++ toString x ++ "+" ++ toString y ++ " +repage \"" ++ format ++ ":" ++ outputPath ++ "\""
  ([cmd], (executeCommand env cmd).map (fun _ => ()))

/-- Embedding of `trimImage`. -/
def trimImage (env : ExecEnv) (inputPath outputPath : String)
    (format : String) : List String × Except JsError Unit :=
  let cmd := "magick \"" ++ inputPath ++ "\" -trim +repage \"" ++ format ++ ":" ++ outputPath ++ "\""
  ([cmd], (executeCommand env cmd).map (fun _ => ()))

/-! ### Authentication middleware and the health route -/

/-- Outcome of the auth middleware: either the request proceeds to the next
handler, or it is rejected with a status and JSON body. -/
inductive AuthOutcome where
  | pass
  | reject (status : Nat) (body : List (String × JValue))
deriving DecidableEq, Repr

/-- Embedding of `src/middleware/auth.js`: no configured (non-blank) token
passes everything; otherwise a missing `Authorization` header is rejected
401 and a header whose token (with an optional `Bearer ` prefix stripped)
differs from the configured token is rejected 403. -/
def authMiddleware (apiToken : Option String) (authHeader : Option String) : AuthOutcome :=
  if !(jsTruthy apiToken) ∨ jsTrim (apiToken.getD ("")) = "" then AuthOutcome.pass
  else if !(jsTruthy authHeader) then
    AuthOutcome.reject 401 [("success", JValue.num 0),
      ("errormessage", JValue.str ("Authorization header missing. Please provide API token."))]
  else
    let h := authHeader.getD ("")
    let token := if ("Bearer ").data.isPrefixOf h.data then String.mk (h.data.drop 7) else h
    if token ≠ apiToken.getD ("") then
      AuthOutcome.reject 403 [("success", JValue.num 0),
        ("errormessage", JValue.str ("Invalid API token."))]
    else AuthOutcome.pass

/-- Embedding of a `GET /health` request against `src/server.js`: the
server registers `app.use(authMiddleware)` before `app.get(/health, ...)`
(in both shown revisions), so the request passes through the auth
middleware before reaching the health handler.  `timestamp` and `uptime`
stand for the dynamic values the handler interpolates. -/
def handleHealth (apiToken authHeader : Option String) (timestamp : String) (uptime : Int) :
    HandlerResponse :=
  match authMiddleware apiToken authHeader with
  | AuthOutcome.reject st body => HandlerResponse.json st body
  | AuthOutcome.pass =>
    HandlerResponse.json 200 [("success", JValue.num 1), ("status", JValue.str ("healthy")),
      ("timestamp", JValue.str timestamp), ("uptime", JValue.num uptime)]

/-! ### Route handler traces -/

/-- Everything observable about one handled request: the final response,
the temp files actually written, the subprocess commands attempted, the
temp-file paths assigned to the handler's `inputPath`/`outputPath`
variables, and every `unlink` attempt made during cleanup. -/
structure Trace where
  response : HandlerResponse
  savedFiles : List String
  execCalls : List String
  assignedPaths : List String
  cleanupAttempts : List String
deriving DecidableEq, Repr

/-- Trace of an error exit: the thrown error goes through `next(error)` to
the global error handler, and the catch block runs `cleanupFiles` over the
paths assigned so far (the `filter(Boolean)` of `inputPath`/`outputPath`). -/
def errTraceMk (assigned saved execs : List String) (e : JsError) : Trace :=
  ⟨errorHandler none e, saved, execs, assigned, cleanupFilesAttempts assigned⟩

/-- The JS expression `n || 'auto'` used by the resize handler for response
metadata. -/
def jsNumOrAuto (n : Option Int) : JValue :=
  if jsNumTruthy n then jsNumToJValue n else JValue.str ("auto")

/-- Embedding of `router.post(/rotate)` from `src/routes/rotate.js` (the
revision with `responseMode` support).  Oracles: `uuid` is the random file
id, `saveErr`/`readErr` are the outcomes of the temp-file write and the
output read (`none` = success), `env` executes commands, `outB64` is the
base64 encoding of the output file that a successful read yields. -/
def rotateHandler (env : ExecEnv) (uuid : String) (saveErr readErr : Option String)
    (file : Option UploadedFile) (operation value format : Option String)
    (responseMode : Option String) (outB64 : String) : Trace :=
  match validateFile file with
  | Except.error e => errTraceMk [] [] [] e
  | Except.ok f =>
  match validateParams [("operation", operation), ("value", value), ("format", format)]
      [("operation"), ("value"), ("format")] with
  | Except.error e => errTraceMk [] [] [] e
  | Except.ok _ =>
  let op := jsToLower (operation.getD (""))
  if ¬ (op ∈ [("rotate"), ("flip")]) then
    errTraceMk [] [] [] (mkError ("Operation must be \"rotate\" or \"flip\""))
  else
  match saveErr with
  | some m => errTraceMk [] [] [] (mkError m)
  | none =>
  let inputPath := generateTempPath uuid (getExtension f.mimetype)
  let outputExt := getExtension (format.getD (""))
  let outputPath := replaceLastExt inputPath ("_" ++ op ++ "." ++ outputExt)
  let assigned := [inputPath, outputPath]
  let saved := [inputPath]
  let afterTransform : List String → Trace := fun cmds =>
    let rMode := if jsTruthy responseMode then responseMode.getD ("") else "base64"
    if ¬ (rMode ∈ [("base64"), ("binary")]) then
      errTraceMk assigned saved cmds (mkError ("responseMode must be \"base64\" or \"binary\""))
    else
      match readErr with
      | some m => errTraceMk assigned saved cmds (mkError m)
      | none =>
        if rMode = "binary" then
          ⟨HandlerResponse.binary [("format", JValue.str outputExt), ("operation", JValue.str op),
              ("value", JValue.str (value.getD ("")))] outputExt (op ++ "." ++ outputExt),
           saved, cmds, assigned, cleanupFilesAttempts assigned⟩
        else
          ⟨HandlerResponse.json 200 (successResponse outB64
              [("mimetype", JValue.str (getMimeType outputExt)), ("format", JValue.str outputExt),
               ("operation", JValue.str op), ("value", JValue.str (value.getD ("")))]),
           saved, cmds, assigned, cleanupFilesAttempts assigned⟩
  if op = "rotate" then
    let degrees := jsParseInt (value.getD (""))
    if ¬ jsIntMem degrees [90, 180, 270, -90, -180, -270] then
      errTraceMk assigned saved []
        (mkError ("Rotation degrees must be 90, 180, or 270 (or negative equivalents)"))
    else
      match rotateImage env inputPath outputPath (degrees.getD 0) (format.getD ("")) with
      | (cmds, Except.error e) => errTraceMk assigned saved cmds e
      | (cmds, Except.ok _) => afterTransform cmds
  else
    let direction := jsToLower (value.getD (""))
    if ¬ (direction ∈ [("horizontal"), ("vertical")]) then
      errTraceMk assigned saved []
        (mkError ("Flip direction must be \"horizontal\" or \"vertical\""))
    else
      match flipImage env inputPath outputPath direction (format.getD ("")) with
      | (cmds, Except.error e) => errTraceMk assigned saved cmds e
      | (cmds, Except.ok _) => afterTransform cmds

/-- Embedding of `router.post(/resize)` (the revision with `responseMode`
support, imported by `src/server.js`). -/
def resizeHandler (env : ExecEnv) (uuid : String) (saveErr readErr : Option String)
    (file : Option UploadedFile) (width height format : Option String)
    (responseMode : Option String) (outB64 : String) : Trace :=
  match validateFile file with
  | Except.error e => errTraceMk [] [] [] e
  | Except.ok f =>
  match validateParams [("format", format)] [("format")] with
  | Except.error e => errTraceMk [] [] [] e
  | Except.ok _ =>
  if ¬ jsTruthy width ∧ ¬ jsTruthy height then
    errTraceMk [] [] [] (mkError ("At least one of width or height must be specified"))
  else
  match validateNumeric [("width", width), ("height", height)] [("width"), ("height")] with
  | Except.error e => errTraceMk [] [] [] e
  | Except.ok _ =>
  match saveErr with
  | some m => errTraceMk [] [] [] (mkError m)
  | none =>
  let inputPath := generateTempPath uuid (getExtension f.mimetype)
  let outputExt := getExtension (format.getD (""))
  let outputPath := replaceLastExt inputPath ("_resized." ++ outputExt)
  let assigned := [inputPath, outputPath]
  let saved := [inputPath]
  let targetWidth : Option Int := if jsTruthy width then jsParseInt (width.getD ("")) else none
  let targetHeight : Option Int := if jsTruthy height then jsParseInt (height.getD ("")) else none
  match resizeImage env inputPath outputPath targetWidth targetHeight (format.getD ("")) with
  | (cmds, Except.error e) => errTraceMk assigned saved cmds e
  | (cmds, Except.ok _) =>
  let rMode := if jsTruthy responseMode then responseMode.getD ("") else "base64"
  if ¬ (rMode ∈ [("base64"), ("binary")]) then
    errTraceMk assigned saved cmds (mkError ("responseMode must be \"base64\" or \"binary\""))
  else
  match readErr with
  | some m => errTraceMk assigned saved cmds (mkError m)
  | none =>
  if rMode = "binary" then
    ⟨HandlerResponse.binary [("format", JValue.str outputExt),
        ("width", jsNumOrAuto targetWidth), ("height", jsNumOrAuto targetHeight)]
        outputExt ("resized." ++ outputExt),
     saved, cmds, assigned, cleanupFilesAttempts assigned⟩
  else
    ⟨HandlerResponse.json 200 (successResponse outB64
        [("mimetype", JValue.str (getMimeType outputExt)), ("format", JValue.str outputExt),
         ("width", jsNumOrAuto targetWidth), ("height", jsNumOrAuto targetHeight)]),
     saved, cmds, assigned, cleanupFilesAttempts assigned⟩

/-- The `/convert` format allow-list. -/
def validFormats : List String :=
  [("png"), ("jpg"), ("jpeg"), ("webp"), ("gif"), ("bmp"), ("tiff"), ("svg")]

/-- Embedding of `router.post(/convert)` (the shown revision responds in
base64 only and runs cleanup just before `res.json`). -/
def convertHandler (env : ExecEnv) (uuid : String) (saveErr readErr : Option String)
    (file : Option UploadedFile) (format quality : Option String)
    (outB64 : String) : Trace :=
  match validateFile file with
  | Except.error e => errTraceMk [] [] [] e
  | Except.ok f =>
  match validateParams [("format", format)] [("format")] with
  | Except.error e => errTraceMk [] [] [] e
  | Except.ok _ =>
  let qualityCheck : Except JsError Unit :=
    if jsTruthy quality then
      match validateNumeric [("quality", quality)] [("quality")] with
      | Except.error e => Except.error e
      | Except.ok _ =>
        let qualityNum := jsParseInt (quality.getD (""))
        if jsLtB qualityNum 1 ∨ jsGtB qualityNum 100 then
          Except.error (mkError ("Quality must be between 1 and 100"))
        else Except.ok ()
    else Except.ok ()
  match qualityCheck with
  | Except.error e => errTraceMk [] [] [] e
  | Except.ok _ =>
  let targetFormat := jsToLower (format.getD (""))
  if ¬ (targetFormat ∈ validFormats) then
    errTraceMk [] [] []
      (mkError ("Invalid format. Supported formats: " ++ String.intercalate (", ") validFormats))
  else
  match saveErr with
  | some m => errTraceMk [] [] [] (mkError m)
  | none =>
  let inputPath := generateTempPath uuid (getExtension f.mimetype)
  let outputExt := if targetFormat = "jpeg" then "jpg" else targetFormat
  let outputPath := replaceLastExt inputPath ("_converted." ++ outputExt)
  let assigned := [inputPath, outputPath]
  let saved := [inputPath]
  let qualityNum : Option Int := if jsTruthy quality then jsParseInt (quality.getD ("")) else none
  match convertFormat env inputPath outputPath targetFormat qualityNum with
  | (cmds, Except.error e) => errTraceMk assigned saved cmds e
  | (cmds, Except.ok _) =>
  match readErr with
  | some m => errTraceMk assigned saved cmds (mkError m)
  | none =>
    ⟨HandlerResponse.json 200 (successResponse outB64
        [("format", JValue.str outputExt),
         ("quality", if jsNumTruthy qualityNum then jsNumToJValue qualityNum
                     else JValue.str ("default"))]),
     saved, cmds, assigned, cleanupFilesAttempts assigned⟩

/-- Embedding of `router.post(/optimize)` (the revision requiring both
`quality` and `format`, with `responseMode` support). -/
def optimizeHandler (env : ExecEnv) (uuid : String) (saveErr readErr : Option String)
    (file : Option UploadedFile) (quality format : Option String)
    (responseMode : Option String) (outB64 : String) : Trace :=
  match validateFile file with
  | Except.error e => errTraceMk [] [] [] e
  | Except.ok f =>
  match validateParams [("quality", quality), ("format", format)] [("quality"), ("format")] with
  | Except.error e => errTraceMk [] [] [] e
  | Except.ok _ =>
  match validateNumeric [("quality", quality)] [("quality")] with
  | Except.error e => errTraceMk [] [] [] e
  | Except.ok _ =>
  let qualityNum := jsParseInt (quality.getD (""))
  if jsLtB qualityNum 1 ∨ jsGtB qualityNum 100 then
    errTraceMk [] [] [] (mkError ("Quality must be between 1 and 100"))
  else
  match saveErr with
  | some m => errTraceMk [] [] [] (mkError m)
  | none =>
  let inputPath := generateTempPath uuid (getExtension f.mimetype)
  let outputExt := getExtension (format.getD (""))
  let outputPath := replaceLastExt inputPath ("_optimized." ++ outputExt)
  let assigned := [inputPath, outputPath]
  let saved := [inputPath]
  match optimizeImage env inputPath outputPath (qualityNum.getD 0) (format.getD ("")) with
  | (cmds, Except.error e) => errTraceMk assigned saved cmds e
  | (cmds, Except.ok _) =>
  let rMode := if jsTruthy responseMode then responseMode.getD ("") else "base64"
  if ¬ (rMode ∈ [("base64"), ("binary")]) then
    errTraceMk assigned saved cmds (mkError ("responseMode must be \"base64\" or \"binary\""))
  else
  match readErr with
  | some m => errTraceMk assigned saved cmds (mkError m)
  | none =>
  if rMode = "binary" then
    ⟨HandlerResponse.binary [("format", JValue.str outputExt),
        ("quality", jsNumToJValue qualityNum)] outputExt ("optimized." ++ outputExt),
     saved, cmds, assigned, cleanupFilesAttempts assigned⟩
  else
    ⟨HandlerResponse.json 200 (successResponse outB64
        [("format", JValue.str outputExt), ("quality", jsNumToJValue qualityNum)]),
     saved, cmds, assigned, cleanupFilesAttempts assigned⟩

/-- Embedding of `router.post(/crop)` (the revision with `responseMode`
support). -/
def cropHandler (env : ExecEnv) (uuid : String) (saveErr readErr : Option String)
    (file : Option UploadedFile) (mode format width height x y : Option String)
    (responseMode : Option String) (outB64 : String) : Trace :=
  match validateFile file with
  | Except.error e => errTraceMk [] [] [] e
  | Except.ok f =>
  match validateParams [("mode", mode), ("format", format)] [("mode"), ("format")] with
  | Except.error e => errTraceMk [] [] [] e
  | Except.ok _ =>
  let cropMode := jsToLower (mode.getD (""))
  if ¬ (cropMode ∈ [("manual"), ("trim")]) then
    errTraceMk [] [] [] (mkError ("Mode must be \"manual\" or \"trim\""))
  else
  match saveErr with
  | some m => errTraceMk [] [] [] (mkError m)
  | none =>
  let inputPath := generateTempPath uuid (getExtension f.mimetype)
  let outputExt := getExtension (format.getD (""))
  let outputPath := replaceLastExt inputPath ("_cropped." ++ outputExt)
  let assigned := [inputPath, outputPath]
  let saved := [inputPath]
  let metadata : List (String × JValue) :=
    [("format", JValue.str outputExt), ("mode", JValue.str cropMode)] ++
      (if cropMode = "manual" then
        [("width", jsNumToJValue (jsParseInt (width.getD ("")))),
         ("height", jsNumToJValue (jsParseInt (height.getD ("")))),
         ("x", jsNumToJValue (jsParseInt (x.getD ("")))),
         ("y", jsNumToJValue (jsParseInt (y.getD ("")))) ]
      else [])
  let afterTransform : List String → Trace := fun cmds =>
    let rMode := if jsTruthy responseMode then responseMode.getD ("") else "base64"
    if ¬ (rMode ∈ [("base64"), ("binary")]) then
      errTraceMk assigned saved cmds (mkError ("responseMode must be \"base64\" or \"binary\""))
    else
      match readErr with
      | some m => errTraceMk assigned saved cmds (mkError m)
      | none =>
        if rMode = "binary" then
          ⟨HandlerResponse.binary metadata outputExt ("cropped." ++ outputExt),
           saved, cmds, assigned, cleanupFilesAttempts assigned⟩
        else
          ⟨HandlerResponse.json 200 (successResponse outB64
              ([("mimetype", JValue.str (getMimeType outputExt))] ++ metadata)),
           saved, cmds, assigned, cleanupFilesAttempts assigned⟩
  if cropMode = "manual" then
    match validateParams [("width", width), ("height", height), ("x", x), ("y", y)]
        [("width"), ("height"), ("x"), ("y")] with
    | Except.error e => errTraceMk assigned saved [] e
    | Except.ok _ =>
    match validateNumeric [("width", width), ("height", height), ("x", x), ("y", y)]
        [("width"), ("height"), ("x"), ("y")] with
    | Except.error e => errTraceMk assigned saved [] e
    | Except.ok _ =>
    match cropImage env inputPath outputPath
        ((jsParseInt (width.getD (""))).getD 0) ((jsParseInt (height.getD (""))).getD 0)
        ((jsParseInt (x.getD (""))).getD 0) ((jsParseInt (y.getD (""))).getD 0)
        (format.getD ("")) with
    | (cmds, Except.error e) => errTraceMk assigned saved cmds e
    | (cmds, Except.ok _) => afterTransform cmds
  else
    match trimImage env inputPath outputPath (format.getD ("")) with
    | (cmds, Except.error e) => errTraceMk assigned saved cmds e
    | (cmds, Except.ok _) => afterTransform cmds

/-! ### Substring search (used to state that a response contains stderr) -/

/-- Boolean prefix test on character lists. -/
def isPrefixB : List Char → List Char → Bool
  | [], _ => true
  | _ :: _, [] => false
  | a :: as, b :: bs => a = b && isPrefixB as bs

/-- Boolean substring test on character lists. -/
def isSubstrListB (sub : List Char) : List Char → Bool
  | [] => sub.isEmpty
  | c :: cs => isPrefixB sub (c :: cs) || isSubstrListB sub cs

/-- Whether `sub` occurs contiguously inside `s`. -/
def substrB (s sub : String) : Bool :=
  isSubstrListB sub.data s.data

/-- Embedding of `terminalDither` from `src/utils/imagemagick.js`. -/
def terminalDither (env : ExecEnv) (inputPath outputPath : String) :
    List String × Except JsError Unit :=
  let cmd := "magick \"" ++ inputPath ++ "\" -contrast-stretch 0x10% -sharpen 0x1 -dither FloydSteinberg -remap pattern:gray50 -depth 1 -strip png:\"" ++ outputPath ++ "\""
  ([cmd], (executeCommand env cmd).map (fun _ => ()))

/-- Embedding of `router.post(/terminal)` from `src/routes/terminal.js`
(the revision with `responseMode` support). -/
def terminalHandler (env : ExecEnv) (uuid : String) (saveErr readErr : Option String)
    (file : Option UploadedFile) (responseMode : Option String) (outB64 : String) : Trace :=
  match validateFile file with
  | Except.error e => errTraceMk [] [] [] e
  | Except.ok f =>
  match saveErr with
  | some m => errTraceMk [] [] [] (mkError m)
  | none =>
  let inputPath := generateTempPath uuid (getExtension f.mimetype)
  let outputPath := replaceLastExt inputPath ("_out.png")
  let assigned := [inputPath, outputPath]
  let saved := [inputPath]
  match terminalDither env inputPath outputPath with
  | (cmds, Except.error e) => errTraceMk assigned saved cmds e
  | (cmds, Except.ok _) =>
  let rMode := if jsTruthy responseMode then responseMode.getD ("") else "base64"
  if ¬ (rMode ∈ [("base64"), ("binary")]) then
    errTraceMk assigned saved cmds (mkError ("responseMode must be \"base64\" or \"binary\""))
  else
  match readErr with
  | some m => errTraceMk assigned saved cmds (mkError m)
  | none =>
  if rMode = "binary" then
    ⟨HandlerResponse.binary [("format", JValue.str ("png")), ("effect", JValue.str ("terminal-dithering"))]
        "png" "terminal-dithered.png",
     saved, cmds, assigned, cleanupFilesAttempts assigned⟩
  else
    ⟨HandlerResponse.json 200 (successResponse outB64
        [("mimetype", JValue.str (getMimeType "png")), ("format", JValue.str ("png")),
         ("effect", JValue.str ("terminal-dithering"))]),
     saved, cmds, assigned, cleanupFilesAttempts assigned⟩

/-- Subprocess environment in which every command succeeds silently. -/
def okEnv : ExecEnv := fun _ => ⟨0, "", ""⟩

/-- Subprocess environment in which every command exits 1 with a diagnostic
on stderr. -/
def failEnv : ExecEnv := fun _ => ⟨1, "", "magick: unable to open image"⟩

/-- A PNG upload. -/
def pngFile : UploadedFile := ⟨"image/png"⟩

/-- The error message `executeCommand` produces under `failEnv` for the
rotate command of the concrete request used as a counterexample. -/
def rotateFailMsg : String :=
  "ImageMagick command failed: Command failed: magick \"tmpfiles/u1.png\" -rotate 90 \"png:tmpfiles/u1_rotate.png\"\nmagick: unable to open image"

/-! ### Helper lemmas about temp-file paths -/

/-- On input of the shape (reversed) `ext.reverse ++ dot :: rest` with `ext`
non-empty and dot-free, `remExtRev` strips exactly the extension. -/
theorem remExtRev_eq (l rest : List Char) (seen : Bool)
    (hall : ∀ c ∈ l, c ≠ '.') (hne : l ≠ [] ∨ seen = true) :
    remExtRev (l ++ '.' :: rest) seen = some rest := by
  induction l generalizing seen with
  | nil =>
    rcases hne with h | h
    · exact absurd rfl h
    · subst h
      simp [remExtRev]
  | cons c cs ih =>
    have hc : c ≠ '.' := hall c (by simp)
    simp only [List.cons_append, remExtRev, if_neg hc]
    exact ih true (fun d hd => hall d (List.mem_cons_of_mem c hd)) (Or.inr rfl)

/-- Replacing the final extension of `a ++ "." ++ ext` (with `ext` non-empty
and dot-free) yields `a ++ r`. -/
theorem replaceLastExt_append (a ext r : String)
    (hne : ext.data ≠ []) (hall : ∀ c ∈ ext.data, c ≠ '.') :
    replaceLastExt (a ++ "." ++ ext) r = a ++ r := by
  unfold replaceLastExt
  have hdata : (a ++ "." ++ ext).data = a.data ++ '.' :: ext.data := by
    simp [String.data_append]
  have hrev : (a ++ "." ++ ext).data.reverse = ext.data.reverse ++ '.' :: a.data.reverse := by
    rw [hdata, List.reverse_append, List.reverse_cons, List.append_assoc]
    simp
  rw [hrev, remExtRev_eq _ _ _ (fun c hc => hall c (List.mem_reverse.mp hc))
    (Or.inl (by simpa using hne))]
  simp only [List.reverse_reverse]

/-- A path of the shape `a ++ "." ++ ext` is distinct from the result of
replacing its extension by a replacement starting with an underscore. -/
theorem path_ne_replaceLastExt (a ext r : String)
    (hne : ext.data ≠ []) (hall : ∀ c ∈ ext.data, c ≠ '.')
    (hr : r.data.head? = some '_') :
    a ++ "." ++ ext ≠ replaceLastExt (a ++ "." ++ ext) r := by
  rw [replaceLastExt_append a ext r hne hall]
  intro h
  have hd : (a ++ "." ++ ext).data = (a ++ r).data := congrArg String.data h
  rw [String.data_append, String.data_append, String.data_append, List.append_assoc] at hd
  have h2 : ("." : String).data ++ ext.data = r.data := List.append_cancel_left hd
  have h3 : ('.' :: ext.data).head? = r.data.head? := congrArg List.head? h2
  rw [hr] at h3
  simp at h3

/-- If `validateFile` succeeds, the file's MIME type is on the allow-list. -/
theorem validateFile_ok_mime {file : Option UploadedFile} {f : UploadedFile}
    (h : validateFile file = Except.ok f) : f.mimetype ∈ validMimeTypes := by
  cases file with
  | none => simp [validateFile] at h
  | some g =>
    by_cases hm : g.mimetype ∈ validMimeTypes
    · simp only [validateFile, if_pos hm] at h
      cases h
      exact hm
    · simp [validateFile, if_neg hm] at h

/-- The extension derived from an allow-listed MIME type is one of the seven
known extensions. -/
theorem getExtension_of_validMime (m : String) (h : m ∈ validMimeTypes) :
    getExtension m ∈ [("jpg"), ("png"), ("gif"), ("webp"), ("bmp"), ("tiff"), ("svg")] := by
  fin_cases h <;> decide

/-- The seven known extensions are non-empty and dot-free. -/
theorem ext_shape (e : String)
    (h : e ∈ [("jpg"), ("png"), ("gif"), ("webp"), ("bmp"), ("tiff"), ("svg")]) :
    e.data ≠ [] ∧ ∀ c ∈ e.data, c ≠ '.' := by
  fin_cases h <;> exact ⟨by decide, by decide⟩

/-- The two paths a handler assigns — the saved input and the
extension-replaced output with an underscore-initial replacement — are
distinct. -/
theorem generateTempPath_ne (uuid ext r : String)
    (h : ext ∈ [("jpg"), ("png"), ("gif"), ("webp"), ("bmp"), ("tiff"), ("svg")])
    (hr : r.data.head? = some '_') :
    generateTempPath uuid ext ≠ replaceLastExt (generateTempPath uuid ext) r := by
  obtain ⟨h1, h2⟩ := ext_shape ext h
  exact path_ne_replaceLastExt (TEMP_DIR ++ "/" ++ uuid) ext r h1 h2 hr

/-- Counting in a two-element duplicate-free list. -/
theorem count_pair_eq_one {i o : String} (h : i ≠ o) :
    ∀ p ∈ [i, o], ([i, o]).count p = 1 := by
  intro p hp
  rcases List.mem_pair.mp hp with rfl | rfl
  · simp [List.count_cons, h.symm]
  · simp [List.count_cons, h]

/-! ### Claim theorems -/

/-- C2 (code evaluated at the failing input): with an API token configured,
a `GET /health` request carrying no `Authorization` header is rejected 401
by the auth middleware — it does not pass unchecked, because `server.js`
registers `app.use(authMiddleware)` before the `/health` route; with no
token configured the same request succeeds. -/
theorem health_requires_auth_when_token_configured :
    handleHealth (some ("secret")) none "2026-10-12T00:00:00Z" 3 =
      HandlerResponse.json 401 [("success", JValue.num 0),
        ("errormessage", JValue.str ("Authorization header missing. Please provide API token."))] ∧
    handleHealth none none "2026-10-12T00:00:00Z" 3 =
      HandlerResponse.json 200 [("success", JValue.num 1), ("status", JValue.str ("healthy")),
        ("timestamp", JValue.str ("2026-10-12T00:00:00Z")), ("uptime", JValue.num 3)] :=
  ⟨rfl, rfl⟩

/-- C6: for the optimize and convert operations, quality `0` and `101` fail
validation with `Quality must be between 1 and 100` (before any file is
written), while quality `1` and `100` pass validation and the requests
succeed. -/
theorem quality_boundary_validation :
    ((optimizeHandler okEnv "u1" none none (some pngFile) (some ("0")) (some ("jpg")) none "B64") =
      errTraceMk [] [] [] (mkError ("Quality must be between 1 and 100"))) ∧
    ((optimizeHandler okEnv "u1" none none (some pngFile) (some ("101")) (some ("jpg")) none "B64") =
      errTraceMk [] [] [] (mkError ("Quality must be between 1 and 100"))) ∧
    ((optimizeHandler okEnv "u1" none none (some pngFile) (some ("1")) (some ("jpg")) none "B64").response =
      HandlerResponse.json 200 (successResponse "B64"
        [("format", JValue.str ("png")), ("quality", JValue.num 1)])) ∧
    ((optimizeHandler okEnv "u1" none none (some pngFile) (some ("100")) (some ("jpg")) none "B64").response =
      HandlerResponse.json 200 (successResponse "B64"
        [("format", JValue.str ("png")), ("quality", JValue.num 100)])) ∧
    ((convertHandler okEnv "u1" none none (some pngFile) (some ("jpg")) (some ("0")) "B64") =
      errTraceMk [] [] [] (mkError ("Quality must be between 1 and 100"))) ∧
    ((convertHandler okEnv "u1" none none (some pngFile) (some ("jpg")) (some ("101")) "B64") =
      errTraceMk [] [] [] (mkError ("Quality must be between 1 and 100"))) ∧
    ((convertHandler okEnv "u1" none none (some pngFile) (some ("jpg")) (some ("1")) "B64").response =
      HandlerResponse.json 200 (successResponse "B64"
        [("format", JValue.str ("jpg")), ("quality", JValue.num 1)])) ∧
    ((convertHandler okEnv "u1" none none (some pngFile) (some ("jpg")) (some ("100")) "B64").response =
      HandlerResponse.json 200 (successResponse "B64"
        [("format", JValue.str ("jpg")), ("quality", JValue.num 100)])) :=
  ⟨rfl, rfl, rfl, rfl, rfl, rfl, rfl, rfl⟩

/-- C1 counterexample: a rotate request whose tool invocation exits 1 with
`magick: unable to open image` on stderr receives an HTTP error body whose
`errormessage` contains that stderr text verbatim — contradicting the claim
that the body never contains the subprocess stderr. -/
theorem rotate_error_body_contains_stderr :
    (rotateHandler failEnv "u1" none none (some pngFile) (some ("rotate")) (some ("90"))
        (some ("png")) none "B64").response =
      HandlerResponse.json 500 [("success", JValue.num 0), ("errormessage", JValue.str rotateFailMsg)] ∧
    substrB rotateFailMsg "magick: unable to open image" = true :=
  ⟨rfl, rfl⟩

/-- C1 amended: when the tool exits non-zero with non-empty stderr, the
thrown error wraps Node's exec failure message — which embeds the command
line and the stderr text verbatim — and the global error handler returns
exactly that message to the client in `errormessage` with status 500; on a
zero exit `executeCommand` succeeds (its stderr is only logged). -/
theorem exec_failure_message_verbatim (env : ExecEnv) (cmd : String)
    (h1 : (env cmd).exitCode ≠ 0) (h2 : (env cmd).stderr ≠ "") :
    executeCommand env cmd = Except.error (mkError ("ImageMagick command failed: " ++
      ("Command failed: " ++ cmd ++ ("\n" ++ (env cmd).stderr)))) ∧
    (∀ m : String, m ≠ "" → errorHandler none (mkError m) =
      HandlerResponse.json 500 [("success", JValue.num 0), ("errormessage", JValue.str m)]) ∧
    (∀ env2 : ExecEnv, ∀ cmd2 : String, (env2 cmd2).exitCode = 0 →
      executeCommand env2 cmd2 = Except.ok ((env2 cmd2).stdout, (env2 cmd2).stderr)) := by
  refine ⟨?_, ?_, ?_⟩
  · simp [executeCommand, nodeExecErrorMessage, h1, h2]
  · intro m hm
    simp [errorHandler, mkError, hm]
  · intro env2 cmd2 h
    simp [executeCommand, h]

/-- Witness for `exec_failure_message_verbatim` at a concrete failing
command. -/
theorem exec_failure_message_verbatim_witness :
    executeCommand failEnv "magick x" = Except.error (mkError ("ImageMagick command failed: " ++
      ("Command failed: " ++ "magick x" ++ ("\n" ++ (failEnv "magick x").stderr)))) :=
  (exec_failure_message_verbatim failEnv "magick x" (by decide) (by decide)).1

/-- C3 counterexample: a rotate request that is valid except for
`responseMode=xml` does write the input temp file and does invoke the
external tool before failing with the responseMode validation error —
contradicting the claim that such requests fail before any filesystem or
subprocess work. -/
theorem responseMode_invalid_cex :
    (rotateHandler okEnv "u1" none none (some pngFile) (some ("rotate")) (some ("90"))
        (some ("png")) (some ("xml")) "B64").response =
      HandlerResponse.json 500 [("success", JValue.num 0),
        ("errormessage", JValue.str ("responseMode must be \"base64\" or \"binary\""))] ∧
    (rotateHandler okEnv "u1" none none (some pngFile) (some ("rotate")) (some ("90"))
        (some ("png")) (some ("xml")) "B64").savedFiles ≠ [] ∧
    (rotateHandler okEnv "u1" none none (some pngFile) (some ("rotate")) (some ("90"))
        (some ("png")) (some ("xml")) "B64").execCalls ≠ [] :=
  ⟨rfl, by decide, by decide⟩

/-- C3 amended: a processing request carrying a non-empty `responseMode`
other than `base64`/`binary` does fail with the responseMode validation
error, but only after the input temp file has been written and the external
tool invoked (just before the output file is read); cleanup of both
assigned temp paths still runs. -/
theorem responseMode_invalid_after_work (env : ExecEnv) (mode b64 : String)
    (h1 : mode ≠ "base64") (h2 : mode ≠ "binary") (h3 : mode ≠ "")
    (hok : (env ("magick \"tmpfiles/u1.png\" -rotate 90 \"png:tmpfiles/u1_rotate.png\"")).exitCode = 0) :
    rotateHandler env "u1" none none (some pngFile) (some ("rotate")) (some ("90"))
        (some ("png")) (some mode) b64 =
      ⟨HandlerResponse.json 500 [("success", JValue.num 0),
          ("errormessage", JValue.str ("responseMode must be \"base64\" or \"binary\""))],
        ["tmpfiles/u1.png"],
        ["magick \"tmpfiles/u1.png\" -rotate 90 \"png:tmpfiles/u1_rotate.png\""],
        ["tmpfiles/u1.png", "tmpfiles/u1_rotate.png"],
        ["tmpfiles/u1.png", "tmpfiles/u1_rotate.png"]⟩ := by
  have h0 : rotateHandler env "u1" none none (some pngFile) (some ("rotate")) (some ("90"))
      (some ("png")) (some mode) b64 =
      (match rotateImage env "tmpfiles/u1.png" "tmpfiles/u1_rotate.png" 90 "png" with
       | (cmds, Except.error e) =>
          errTraceMk ["tmpfiles/u1.png", "tmpfiles/u1_rotate.png"] ["tmpfiles/u1.png"] cmds e
       | (cmds, Except.ok _) =>
          (let rMode := if jsTruthy (some mode) then mode else "base64"
           if ¬ (rMode ∈ [("base64"), ("binary")]) then
             errTraceMk ["tmpfiles/u1.png", "tmpfiles/u1_rotate.png"] ["tmpfiles/u1.png"] cmds
               (mkError ("responseMode must be \"base64\" or \"binary\""))
           else
             match (none : Option String) with
             | some m =>
                errTraceMk ["tmpfiles/u1.png", "tmpfiles/u1_rotate.png"] ["tmpfiles/u1.png"] cmds (mkError m)
             | none =>
               if rMode = "binary" then
                 ⟨HandlerResponse.binary [("format", JValue.str ("png")), ("operation", JValue.str ("rotate")),
                     ("value", JValue.str ("90"))] "png" "rotate.png",
                  ["tmpfiles/u1.png"], cmds, ["tmpfiles/u1.png", "tmpfiles/u1_rotate.png"],
                  cleanupFilesAttempts ["tmpfiles/u1.png", "tmpfiles/u1_rotate.png"]⟩
               else
                 ⟨HandlerResponse.json 200 (successResponse b64
                     [("mimetype", JValue.str (getMimeType "png")), ("format", JValue.str ("png")),
                      ("operation", JValue.str ("rotate")), ("value", JValue.str ("90"))]),
                  ["tmpfiles/u1.png"], cmds, ["tmpfiles/u1.png", "tmpfiles/u1_rotate.png"],
                  cleanupFilesAttempts ["tmpfiles/u1.png", "tmpfiles/u1_rotate.png"]⟩)) := rfl
  rw [h0]
  have hexec : executeCommand env ("magick \"tmpfiles/u1.png\" -rotate 90 \"png:tmpfiles/u1_rotate.png\"") =
      Except.ok ((env ("magick \"tmpfiles/u1.png\" -rotate 90 \"png:tmpfiles/u1_rotate.png\"")).stdout,
        (env ("magick \"tmpfiles/u1.png\" -rotate 90 \"png:tmpfiles/u1_rotate.png\"")).stderr) := by
    simp only [executeCommand]
    rw [if_pos hok]
  have hstep : rotateImage env "tmpfiles/u1.png" "tmpfiles/u1_rotate.png" 90 "png" =
      (["magick \"tmpfiles/u1.png\" -rotate 90 \"png:tmpfiles/u1_rotate.png\""],
        (executeCommand env ("magick \"tmpfiles/u1.png\" -rotate 90 \"png:tmpfiles/u1_rotate.png\"")).map
          (fun _ => ())) := rfl
  have hrot : rotateImage env "tmpfiles/u1.png" "tmpfiles/u1_rotate.png" 90 "png" =
      (["magick \"tmpfiles/u1.png\" -rotate 90 \"png:tmpfiles/u1_rotate.png\""],
        Except.ok ()) := by
    rw [hstep, hexec]
    rfl
  rw [hrot]
  have hm : jsTruthy (some mode) = true := by
    simp [jsTruthy, h3]
  simp [hm, h1, h2, errTraceMk, cleanupFilesAttempts, deleteFileAttempts, errorHandler, mkError]

/-- Witness for `responseMode_invalid_after_work` at `responseMode=xml`
under a succeeding subprocess environment. -/
theorem responseMode_invalid_after_work_witness :
    rotateHandler okEnv "u1" none none (some pngFile) (some ("rotate")) (some ("90"))
        (some ("png")) (some ("xml")) "B64" =
      ⟨HandlerResponse.json 500 [("success", JValue.num 0),
          ("errormessage", JValue.str ("responseMode must be \"base64\" or \"binary\""))],
        ["tmpfiles/u1.png"],
        ["magick \"tmpfiles/u1.png\" -rotate 90 \"png:tmpfiles/u1_rotate.png\""],
        ["tmpfiles/u1.png", "tmpfiles/u1_rotate.png"],
        ["tmpfiles/u1.png", "tmpfiles/u1_rotate.png"]⟩ :=
  responseMode_invalid_after_work okEnv "xml" "B64" (by decide) (by decide) (by decide) (by decide)

/-- C7 counterexample: with neither width nor height supplied, the resize
handler fails with the message `At least one of width or height must be
specified` (capital A), which differs from the lowercase message quoted in
the claim. -/
theorem resize_missing_dims_message_cex :
    (resizeHandler okEnv "u1" none none (some pngFile) none none (some ("png")) none "B64") =
      errTraceMk [] [] [] (mkError ("At least one of width or height must be specified")) ∧
    ("At least one of width or height must be specified" : String) ≠
      "at least one of width or height must be specified" :=
  ⟨rfl, by decide⟩

/-- C7 amended: (a) when both width and height are absent or empty, resize
fails with `At least one of width or height must be specified` (capital A)
before any file work; (b) a supplied dimension whose `Number(...)`
conversion fails or is negative fails validation before any file work with
the message naming that dimension — an invalid width (checked first), an
invalid height next to a valid width, or an invalid height with no width
at all; (c) a request with width 800, format png and no height succeeds
with `success:1`, `width:800`, `height:auto`, `format:png`. -/
theorem resize_validation_rules (env : ExecEnv) (uuid b64 : String) (h : Option String) :
    (∀ w : Option String, jsTruthy w = false → jsTruthy h = false →
      resizeHandler env uuid none none (some pngFile) w h (some ("png")) none b64 =
        errTraceMk [] [] [] (mkError ("At least one of width or height must be specified"))) ∧
    (∀ ws : String, ws ≠ "" → numFailsValidation ws = true →
      resizeHandler env uuid none none (some pngFile) (some ws) h (some ("png")) none b64 =
        errTraceMk [] [] [] (mkError ("Parameter \x27width\x27 must be a positive number"))) ∧
    (∀ ws hs : String, ws ≠ "" → numFailsValidation ws = false → hs ≠ "" →
      numFailsValidation hs = true →
      resizeHandler env uuid none none (some pngFile) (some ws) (some hs) (some ("png")) none b64 =
        errTraceMk [] [] [] (mkError ("Parameter \x27height\x27 must be a positive number"))) ∧
    (∀ hs : String, hs ≠ "" → numFailsValidation hs = true →
      resizeHandler env uuid none none (some pngFile) none (some hs) (some ("png")) none b64 =
        errTraceMk [] [] [] (mkError ("Parameter \x27height\x27 must be a positive number"))) ∧
    ((env ("magick \"tmpfiles/u1.png\" -resize 800x \"png:tmpfiles/u1_resized.png\"")).exitCode = 0 →
      (resizeHandler env "u1" none none (some pngFile) (some ("800")) none (some ("png")) none b64).response =
        HandlerResponse.json 200 (successResponse b64
          [("mimetype", JValue.str (getMimeType "png")), ("format", JValue.str ("png")),
           ("width", JValue.num 800), ("height", JValue.str ("auto"))])) := by
  refine ⟨?_, ?_, ?_, ?_, ?_⟩
  · intro w hw hh
    have hw' : w = none ∨ w = some "" := by
      cases w with
      | none => exact Or.inl rfl
      | some s =>
        right
        simp [jsTruthy] at hw
        rw [hw]
    have hh' : h = none ∨ h = some "" := by
      cases h with
      | none => exact Or.inl rfl
      | some s =>
        right
        simp [jsTruthy] at hh
        rw [hh]
    rcases hw' with rfl | rfl <;> rcases hh' with rfl | rfl <;> rfl
  · intro ws hws hfail
    have hvn : validateNumeric [("width", some ws), ("height", h)] [("width"), ("height")] =
        Except.error (mkError ("Parameter \x27width\x27 must be a positive number")) := by
      simp [validateNumeric, hfail]
    simp [resizeHandler, jsTruthy, hws, hvn, validateFile, validateParams, pngFile, validMimeTypes]
  · intro ws hs hws hwok hhs hfail
    have hvn : validateNumeric [("width", some ws), ("height", some hs)] [("width"), ("height")] =
        Except.error (mkError ("Parameter \x27height\x27 must be a positive number")) := by
      simp [validateNumeric, hwok, hfail, List.lookup]
    simp [resizeHandler, jsTruthy, hws, hhs, hvn, validateFile, validateParams, pngFile, validMimeTypes]
  · intro hs hhs hfail
    have hvn : validateNumeric [("width", (none : Option String)), ("height", some hs)]
        [("width"), ("height")] =
        Except.error (mkError ("Parameter \x27height\x27 must be a positive number")) := by
      simp [validateNumeric, hfail, List.lookup]
    simp [resizeHandler, jsTruthy, hhs, hvn, validateFile, validateParams, pngFile, validMimeTypes]
  · intro hok
    have hexec : executeCommand env ("magick \"tmpfiles/u1.png\" -resize 800x \"png:tmpfiles/u1_resized.png\"") =
        Except.ok ((env ("magick \"tmpfiles/u1.png\" -resize 800x \"png:tmpfiles/u1_resized.png\"")).stdout,
          (env ("magick \"tmpfiles/u1.png\" -resize 800x \"png:tmpfiles/u1_resized.png\"")).stderr) := by
      simp only [executeCommand]
      rw [if_pos hok]
    have hstep : resizeImage env "tmpfiles/u1.png" "tmpfiles/u1_resized.png" (some 800) none "png" =
        (["magick \"tmpfiles/u1.png\" -resize 800x \"png:tmpfiles/u1_resized.png\""],
          (executeCommand env ("magick \"tmpfiles/u1.png\" -resize 800x \"png:tmpfiles/u1_resized.png\"")).map
            (fun _ => ())) := rfl
    have hres : resizeImage env "tmpfiles/u1.png" "tmpfiles/u1_resized.png" (some 800) none "png" =
        (["magick \"tmpfiles/u1.png\" -resize 800x \"png:tmpfiles/u1_resized.png\""], Except.ok ()) := by
      rw [hstep, hexec]
      rfl
    have h0 : resizeHandler env "u1" none none (some pngFile) (some ("800")) none (some ("png")) none b64 =
        (match resizeImage env "tmpfiles/u1.png" "tmpfiles/u1_resized.png" (some 800) none "png" with
         | (cmds, Except.error e) =>
            errTraceMk ["tmpfiles/u1.png", "tmpfiles/u1_resized.png"] ["tmpfiles/u1.png"] cmds e
         | (cmds, Except.ok _) =>
            ⟨HandlerResponse.json 200 (successResponse b64
                [("mimetype", JValue.str (getMimeType "png")), ("format", JValue.str ("png")),
                 ("width", JValue.num 800), ("height", JValue.str ("auto"))]),
             ["tmpfiles/u1.png"], cmds, ["tmpfiles/u1.png", "tmpfiles/u1_resized.png"],
             cleanupFilesAttempts ["tmpfiles/u1.png", "tmpfiles/u1_resized.png"]⟩) := rfl
    rw [h0, hres]

/-- Witness for `resize_validation_rules`: the no-dimension error, a
negative width failing validation, a negative height failing validation
both next to a valid width and with no width, and the width-800 success
scenario, all at concrete inputs. -/
theorem resize_validation_rules_witness :
    resizeHandler okEnv "u1" none none (some pngFile) none none (some ("png")) none "B64" =
      errTraceMk [] [] [] (mkError ("At least one of width or height must be specified")) ∧
    resizeHandler okEnv "u1" none none (some pngFile) (some ("-5")) none (some ("png")) none "B64" =
      errTraceMk [] [] [] (mkError ("Parameter \x27width\x27 must be a positive number")) ∧
    resizeHandler okEnv "u1" none none (some pngFile) (some ("800")) (some ("-5")) (some ("png")) none "B64" =
      errTraceMk [] [] [] (mkError ("Parameter \x27height\x27 must be a positive number")) ∧
    resizeHandler okEnv "u1" none none (some pngFile) none (some ("abc")) (some ("png")) none "B64" =
      errTraceMk [] [] [] (mkError ("Parameter \x27height\x27 must be a positive number")) ∧
    (resizeHandler okEnv "u1" none none (some pngFile) (some ("800")) none (some ("png")) none "B64").response =
      HandlerResponse.json 200 (successResponse "B64"
        [("mimetype", JValue.str (getMimeType "png")), ("format", JValue.str ("png")),
         ("width", JValue.num 800), ("height", JValue.str ("auto"))]) :=
  ⟨(resize_validation_rules okEnv "u1" "B64" none).1 none (by decide) (by decide),
   (resize_validation_rules okEnv "u1" "B64" none).2.1 "-5" (by decide) (by decide),
   (resize_validation_rules okEnv "u1" "B64" (some ("-5"))).2.2.1 "800" "-5" (by decide) (by decide)
     (by decide) (by decide),
   (resize_validation_rules okEnv "u1" "B64" (some ("abc"))).2.2.2.1 "abc" (by decide) (by decide),
   (resize_validation_rules okEnv "u1" "B64" none).2.2.2.2 (by decide)⟩

/-- C10: a resize request with width and height both supplied as the string
`0` passes the handler's presence and numeric validation, writes the input
temp file, and only then fails inside `resizeImage` with `At least width or
height must be specified` — the external tool is never invoked, and both
assigned temp paths are cleaned up. -/
theorem resize_zero_dims_late_failure (env : ExecEnv) (uuid b64 : String) :
    resizeHandler env uuid none none (some pngFile) (some ("0")) (some ("0")) (some ("png")) none b64 =
      errTraceMk [generateTempPath uuid ("png"),
          replaceLastExt (generateTempPath uuid ("png")) ("_resized.png")]
        [generateTempPath uuid ("png")] []
        (mkError ("At least width or height must be specified")) := rfl

/-- C9: a format string with no dot that is not a recognized MIME-type key
makes `getExtension` fall through to `png`; consequently the resize, rotate
and crop handlers, which compute the output extension as
`getExtension(format)`, report format `png` in the response metadata and
name the output temp file `.png`, while the command passed to the external
tool still targets the requested format. -/
theorem getExtension_unknown_format_png (env : ExecEnv) (b64 : String) :
    (∀ fmt : String, fmt.data.contains ('.') = false → mimeMap.lookup fmt = none →
      getExtension fmt = "png") ∧
    (∀ fmt : String, fmt ≠ "" → fmt.data.contains ('.') = false → mimeMap.lookup fmt = none →
      ((env ("magick \"tmpfiles/u1.png\" -resize 800x \"" ++ fmt ++ ":" ++ "tmpfiles/u1_resized.png" ++ "\"")).exitCode = 0 →
        (resizeHandler env "u1" none none (some pngFile) (some ("800")) none (some fmt) none b64) =
          ⟨HandlerResponse.json 200 (successResponse b64
              [("mimetype", JValue.str (getMimeType "png")), ("format", JValue.str ("png")),
               ("width", JValue.num 800), ("height", JValue.str ("auto"))]),
           ["tmpfiles/u1.png"],
           ["magick \"tmpfiles/u1.png\" -resize 800x \"" ++ fmt ++ ":" ++ "tmpfiles/u1_resized.png" ++ "\""],
           ["tmpfiles/u1.png", "tmpfiles/u1_resized.png"],
           ["tmpfiles/u1.png", "tmpfiles/u1_resized.png"]⟩) ∧
      ((env ("magick \"tmpfiles/u1.png\" -rotate 90 \"" ++ fmt ++ ":" ++ "tmpfiles/u1_rotate.png" ++ "\"")).exitCode = 0 →
        (rotateHandler env "u1" none none (some pngFile) (some ("rotate")) (some ("90")) (some fmt) none b64) =
          ⟨HandlerResponse.json 200 (successResponse b64
              [("mimetype", JValue.str (getMimeType "png")), ("format", JValue.str ("png")),
               ("operation", JValue.str ("rotate")), ("value", JValue.str ("90"))]),
           ["tmpfiles/u1.png"],
           ["magick \"tmpfiles/u1.png\" -rotate 90 \"" ++ fmt ++ ":" ++ "tmpfiles/u1_rotate.png" ++ "\""],
           ["tmpfiles/u1.png", "tmpfiles/u1_rotate.png"],
           ["tmpfiles/u1.png", "tmpfiles/u1_rotate.png"]⟩) ∧
      ((env ("magick \"tmpfiles/u1.png\" -trim +repage \"" ++ fmt ++ ":" ++ "tmpfiles/u1_cropped.png" ++ "\"")).exitCode = 0 →
        (cropHandler env "u1" none none (some pngFile) (some ("trim")) (some fmt)
            none none none none none b64) =
          ⟨HandlerResponse.json 200 (successResponse b64
              [("mimetype", JValue.str (getMimeType "png")), ("format", JValue.str ("png")),
               ("mode", JValue.str ("trim"))]),
           ["tmpfiles/u1.png"],
           ["magick \"tmpfiles/u1.png\" -trim +repage \"" ++ fmt ++ ":" ++ "tmpfiles/u1_cropped.png" ++ "\""],
           ["tmpfiles/u1.png", "tmpfiles/u1_cropped.png"],
           ["tmpfiles/u1.png", "tmpfiles/u1_cropped.png"]⟩)) := by
  have hpart1 : ∀ fmt : String, fmt.data.contains ('.') = false → mimeMap.lookup fmt = none →
      getExtension fmt = "png" := by
    intro fmt h2 h3
    by_cases h1 : fmt = ""
    · subst h1
      rfl
    · have h2' : ¬ ('.' ∈ fmt.data) := by simpa using h2
      simp [getExtension, h1, h2', h3]
  refine ⟨hpart1, ?_⟩
  intro fmt h1 h2 h3
  have hge : getExtension fmt = "png" := hpart1 fmt h2 h3
  have hvf : validateFile (some pngFile) = Except.ok pngFile := rfl
  have hgePng : getExtension pngFile.mimetype = "png" := rfl
  have hgen : generateTempPath "u1" "png" = "tmpfiles/u1.png" := rfl
  refine ⟨?_, ?_, ?_⟩
  · intro hok
    have hexec : executeCommand env ("magick \"tmpfiles/u1.png\" -resize 800x \"" ++ fmt ++ ":" ++ "tmpfiles/u1_resized.png" ++ "\"") =
        Except.ok ((env ("magick \"tmpfiles/u1.png\" -resize 800x \"" ++ fmt ++ ":" ++ "tmpfiles/u1_resized.png" ++ "\"")).stdout,
          (env ("magick \"tmpfiles/u1.png\" -resize 800x \"" ++ fmt ++ ":" ++ "tmpfiles/u1_resized.png" ++ "\"")).stderr) := by
      simp only [executeCommand]
      rw [if_pos hok]
    have hvp : validateParams [("format", some fmt)] [("format")] = Except.ok () := by
      simp [validateParams, jsTruthy, h1]
    have hvn : validateNumeric [("width", some ("800")), ("height", (none : Option String))]
        [("width"), ("height")] = Except.ok () := rfl
    have hri : resizeImage env "tmpfiles/u1.png" "tmpfiles/u1_resized.png" (some 800) none fmt =
        (["magick \"tmpfiles/u1.png\" -resize 800x \"" ++ fmt ++ ":" ++ "tmpfiles/u1_resized.png" ++ "\""],
          (executeCommand env ("magick \"tmpfiles/u1.png\" -resize 800x \"" ++ fmt ++ ":" ++ "tmpfiles/u1_resized.png" ++ "\"")).map
            (fun _ => ())) := rfl
    have hri2 : resizeImage env "tmpfiles/u1.png" "tmpfiles/u1_resized.png" (some 800) none fmt =
        (["magick \"tmpfiles/u1.png\" -resize 800x \"" ++ fmt ++ ":" ++ "tmpfiles/u1_resized.png" ++ "\""],
          Except.ok ()) := by
      rw [hri, hexec]
      rfl
    have hrl : replaceLastExt "tmpfiles/u1.png" "_resized.png" = "tmpfiles/u1_resized.png" := rfl
    have hpi : jsParseInt "800" = some 800 := rfl
    simp [resizeHandler, hvf, hvp, hvn, hgePng, hge, hgen, hrl, hpi, hri2, jsTruthy, jsNumOrAuto,
      jsNumTruthy, jsNumToJValue, successResponse, cleanupFilesAttempts, deleteFileAttempts]
  · intro hok
    have hexec : executeCommand env ("magick \"tmpfiles/u1.png\" -rotate 90 \"" ++ fmt ++ ":" ++ "tmpfiles/u1_rotate.png" ++ "\"") =
        Except.ok ((env ("magick \"tmpfiles/u1.png\" -rotate 90 \"" ++ fmt ++ ":" ++ "tmpfiles/u1_rotate.png" ++ "\"")).stdout,
          (env ("magick \"tmpfiles/u1.png\" -rotate 90 \"" ++ fmt ++ ":" ++ "tmpfiles/u1_rotate.png" ++ "\"")).stderr) := by
      simp only [executeCommand]
      rw [if_pos hok]
    have hvp : validateParams [("operation", some ("rotate")), ("value", some ("90")), ("format", some fmt)]
        [("operation"), ("value"), ("format")] = Except.ok () := by
      simp [validateParams, jsTruthy, h1, List.lookup]
    have hop : jsToLower "rotate" = "rotate" := rfl
    have hdeg : jsParseInt "90" = some 90 := rfl
    have hmem : jsIntMem (some 90) [90, 180, 270, -90, -180, -270] = true := rfl
    have hro : rotateImage env "tmpfiles/u1.png" "tmpfiles/u1_rotate.png" 90 fmt =
        (["magick \"tmpfiles/u1.png\" -rotate 90 \"" ++ fmt ++ ":" ++ "tmpfiles/u1_rotate.png" ++ "\""],
          (executeCommand env ("magick \"tmpfiles/u1.png\" -rotate 90 \"" ++ fmt ++ ":" ++ "tmpfiles/u1_rotate.png" ++ "\"")).map
            (fun _ => ())) := rfl
    have hro2 : rotateImage env "tmpfiles/u1.png" "tmpfiles/u1_rotate.png" 90 fmt =
        (["magick \"tmpfiles/u1.png\" -rotate 90 \"" ++ fmt ++ ":" ++ "tmpfiles/u1_rotate.png" ++ "\""],
          Except.ok ()) := by
      rw [hro, hexec]
      rfl
    have hrl : replaceLastExt "tmpfiles/u1.png" "_rotate.png" = "tmpfiles/u1_rotate.png" := rfl
    simp [rotateHandler, hvf, hvp, hop, hdeg, hmem, hgePng, hge, hgen, hrl, hro2, jsTruthy,
      successResponse, cleanupFilesAttempts, deleteFileAttempts]
  · intro hok
    have hexec : executeCommand env ("magick \"tmpfiles/u1.png\" -trim +repage \"" ++ fmt ++ ":" ++ "tmpfiles/u1_cropped.png" ++ "\"") =
        Except.ok ((env ("magick \"tmpfiles/u1.png\" -trim +repage \"" ++ fmt ++ ":" ++ "tmpfiles/u1_cropped.png" ++ "\"")).stdout,
          (env ("magick \"tmpfiles/u1.png\" -trim +repage \"" ++ fmt ++ ":" ++ "tmpfiles/u1_cropped.png" ++ "\"")).stderr) := by
      simp only [executeCommand]
      rw [if_pos hok]
    have hvp : validateParams [("mode", some ("trim")), ("format", some fmt)]
        [("mode"), ("format")] = Except.ok () := by
      simp [validateParams, jsTruthy, h1, List.lookup]
    have hmode : jsToLower "trim" = "trim" := rfl
    have htr : trimImage env "tmpfiles/u1.png" "tmpfiles/u1_cropped.png" fmt =
        (["magick \"tmpfiles/u1.png\" -trim +repage \"" ++ fmt ++ ":" ++ "tmpfiles/u1_cropped.png" ++ "\""],
          (executeCommand env ("magick \"tmpfiles/u1.png\" -trim +repage \"" ++ fmt ++ ":" ++ "tmpfiles/u1_cropped.png" ++ "\"")).map
            (fun _ => ())) := rfl
    have htr2 : trimImage env "tmpfiles/u1.png" "tmpfiles/u1_cropped.png" fmt =
        (["magick \"tmpfiles/u1.png\" -trim +repage \"" ++ fmt ++ ":" ++ "tmpfiles/u1_cropped.png" ++ "\""],
          Except.ok ()) := by
      rw [htr, hexec]
      rfl
    have hrl : replaceLastExt "tmpfiles/u1.png" "_cropped.png" = "tmpfiles/u1_cropped.png" := rfl
    simp [cropHandler, hvf, hvp, hmode, hgePng, hge, hgen, hrl, htr2, jsTruthy,
      successResponse, cleanupFilesAttempts, deleteFileAttempts]

/-- Witness for `getExtension_unknown_format_png` at the unrecognized
format `webp` under a succeeding subprocess environment. -/
theorem getExtension_unknown_format_png_witness :
    getExtension "webp" = "png" ∧
    (resizeHandler okEnv "u1" none none (some pngFile) (some ("800")) none (some ("webp")) none "B64") =
      ⟨HandlerResponse.json 200 (successResponse "B64"
          [("mimetype", JValue.str (getMimeType "png")), ("format", JValue.str ("png")),
           ("width", JValue.num 800), ("height", JValue.str ("auto"))]),
       ["tmpfiles/u1.png"],
       ["magick \"tmpfiles/u1.png\" -resize 800x \"" ++ "webp" ++ ":" ++ "tmpfiles/u1_resized.png" ++ "\""],
       ["tmpfiles/u1.png", "tmpfiles/u1_resized.png"],
       ["tmpfiles/u1.png", "tmpfiles/u1_resized.png"]⟩ :=
  ⟨(getExtension_unknown_format_png okEnv "B64").1 "webp" (by decide) (by decide),
   ((getExtension_unknown_format_png okEnv "B64").2 "webp" (by decide) (by decide) (by decide)).1 (by decide)⟩

/-- C5: with a non-blank token configured, a request with no `Authorization`
header is rejected 401 with `success:0`, and a request whose presented
token (after stripping an optional `Bearer ` prefix) differs from the
configured token is rejected 403 with `success:0`; both bodies are the
fixed strings shown — the same for every configured token — so they never
carry the configured token value. -/
theorem auth_missing_401_wrong_403 (token hdr : String)
    (htok : jsTrim token ≠ "") (hhdr : hdr ≠ "") :
    authMiddleware (some token) none = AuthOutcome.reject 401 [("success", JValue.num 0),
      ("errormessage", JValue.str ("Authorization header missing. Please provide API token."))] ∧
    ((if ("Bearer ").data.isPrefixOf hdr.data then String.mk (hdr.data.drop 7) else hdr) ≠ token →
      authMiddleware (some token) (some hdr) = AuthOutcome.reject 403 [("success", JValue.num 0),
        ("errormessage", JValue.str ("Invalid API token."))]) := by
  have ht : token ≠ "" := by
    intro he
    apply htok
    rw [he]
    rfl
  constructor
  · simp [authMiddleware, jsTruthy, ht, htok]
  · intro hne
    simp [authMiddleware, jsTruthy, ht, htok, hhdr]
    simpa using hne

/-- Witness for `auth_missing_401_wrong_403` with token `secret` and a
wrong bearer header. -/
theorem auth_missing_401_wrong_403_witness :
    authMiddleware (some ("secret")) none = AuthOutcome.reject 401 [("success", JValue.num 0),
      ("errormessage", JValue.str ("Authorization header missing. Please provide API token."))] ∧
    authMiddleware (some ("secret")) (some ("Bearer wrong")) = AuthOutcome.reject 403
      [("success", JValue.num 0), ("errormessage", JValue.str ("Invalid API token."))] :=
  ⟨(auth_missing_401_wrong_403 "secret" "Bearer wrong" (by decide) (by decide)).1,
   (auth_missing_401_wrong_403 "secret" "Bearer wrong" (by decide) (by decide)).2 (by decide)⟩

/-- C8: the convert handler rejects any format outside the fixed allow-list
before any file work; a `jpeg` target is reported as `jpg` in the output
metadata; and `convertFormat` passes `-quality` to the external tool only
when a quality was supplied and the target is jpg/jpeg/webp — never for the
other formats and never when no quality was supplied. -/
theorem convert_format_rules (env : ExecEnv) (b64 : String) :
    (∀ fmt : String, fmt ≠ "" → ¬ (jsToLower fmt ∈ validFormats) →
      convertHandler env "u1" none none (some pngFile) (some fmt) none b64 =
        errTraceMk [] [] [] (mkError ("Invalid format. Supported formats: " ++
          String.intercalate (", ") validFormats))) ∧
    ((env ("magick \"tmpfiles/u1.png\" \"jpeg:tmpfiles/u1_converted.jpg\"")).exitCode = 0 →
      (convertHandler env "u1" none none (some pngFile) (some ("jpeg")) none b64).response =
        HandlerResponse.json 200 (successResponse b64
          [("format", JValue.str ("jpg")), ("quality", JValue.str ("default"))])) ∧
    (∀ i o fmt : String, ∀ q : Int, (fmt = "jpg" ∨ fmt = "jpeg" ∨ fmt = "webp") →
      (convertFormat env i o fmt (some q)).1 =
        ["magick \"" ++ i ++ "\"" ++ " -quality " ++ jsNumToString (some q) ++ " \"" ++ fmt ++ ":" ++ o ++ "\""]) ∧
    (∀ i o fmt : String, ∀ q : Option Int, ¬ (fmt = "jpg" ∨ fmt = "jpeg" ∨ fmt = "webp") →
      (convertFormat env i o fmt q).1 =
        ["magick \"" ++ i ++ "\"" ++ " \"" ++ fmt ++ ":" ++ o ++ "\""]) ∧
    (∀ i o fmt : String, (convertFormat env i o fmt none).1 =
      ["magick \"" ++ i ++ "\"" ++ " \"" ++ fmt ++ ":" ++ o ++ "\""]) := by
  refine ⟨?_, ?_, ?_, ?_, ?_⟩
  · intro fmt hne hmem
    have hvf : validateFile (some pngFile) = Except.ok pngFile := rfl
    have hvp : validateParams [("format", some fmt)] [("format")] = Except.ok () := by
      simp [validateParams, jsTruthy, hne]
    simp [convertHandler, hvf, hvp, jsTruthy, hmem]
  · intro hok
    have hexec : executeCommand env ("magick \"tmpfiles/u1.png\" \"jpeg:tmpfiles/u1_converted.jpg\"") =
        Except.ok ((env ("magick \"tmpfiles/u1.png\" \"jpeg:tmpfiles/u1_converted.jpg\"")).stdout,
          (env ("magick \"tmpfiles/u1.png\" \"jpeg:tmpfiles/u1_converted.jpg\"")).stderr) := by
      simp only [executeCommand]
      rw [if_pos hok]
    have hcf : convertFormat env "tmpfiles/u1.png" "tmpfiles/u1_converted.jpg" "jpeg" none =
        (["magick \"tmpfiles/u1.png\" \"jpeg:tmpfiles/u1_converted.jpg\""],
          (executeCommand env ("magick \"tmpfiles/u1.png\" \"jpeg:tmpfiles/u1_converted.jpg\"")).map
            (fun _ => ())) := rfl
    have hcf2 : convertFormat env "tmpfiles/u1.png" "tmpfiles/u1_converted.jpg" "jpeg" none =
        (["magick \"tmpfiles/u1.png\" \"jpeg:tmpfiles/u1_converted.jpg\""], Except.ok ()) := by
      rw [hcf, hexec]
      rfl
    have h0 : convertHandler env "u1" none none (some pngFile) (some ("jpeg")) none b64 =
        (match convertFormat env "tmpfiles/u1.png" "tmpfiles/u1_converted.jpg" "jpeg" none with
         | (cmds, Except.error e) =>
            errTraceMk ["tmpfiles/u1.png", "tmpfiles/u1_converted.jpg"] ["tmpfiles/u1.png"] cmds e
         | (cmds, Except.ok _) =>
            ⟨HandlerResponse.json 200 (successResponse b64
                [("format", JValue.str ("jpg")), ("quality", JValue.str ("default"))]),
             ["tmpfiles/u1.png"], cmds, ["tmpfiles/u1.png", "tmpfiles/u1_converted.jpg"],
             cleanupFilesAttempts ["tmpfiles/u1.png", "tmpfiles/u1_converted.jpg"]⟩) := rfl
    rw [h0, hcf2]
  · intro i o fmt q hmem
    rcases hmem with rfl | rfl | rfl <;> rfl
  · intro i o fmt q hno
    simp only [convertFormat]
    rw [if_neg]
    · intro hand
      exact hno hand.2
  · intro i o fmt
    simp [convertFormat]

/-- Witness for `convert_format_rules`: a disallowed format `doc`, the
`jpeg`-reported-as-`jpg` scenario, and the quality flag present for `webp`
but absent for `png`. -/
theorem convert_format_rules_witness :
    convertHandler okEnv "u1" none none (some pngFile) (some ("doc")) none "B64" =
      errTraceMk [] [] [] (mkError ("Invalid format. Supported formats: " ++
        String.intercalate (", ") validFormats)) ∧
    (convertHandler okEnv "u1" none none (some pngFile) (some ("jpeg")) none "B64").response =
      HandlerResponse.json 200 (successResponse "B64"
        [("format", JValue.str ("jpg")), ("quality", JValue.str ("default"))]) ∧
    (convertFormat okEnv "in.png" "out.webp" "webp" (some 80)).1 =
      ["magick \"" ++ "in.png" ++ "\"" ++ " -quality " ++ jsNumToString (some 80) ++ " \"" ++ "webp" ++ ":" ++ "out.webp" ++ "\""] ∧
    (convertFormat okEnv "in.png" "out.png" "png" (some 80)).1 =
      ["magick \"" ++ "in.png" ++ "\"" ++ " \"" ++ "png" ++ ":" ++ "out.png" ++ "\""] :=
  ⟨(convert_format_rules okEnv "B64").1 "doc" (by decide) (by decide),
   (convert_format_rules okEnv "B64").2.1 (by decide),
   (convert_format_rules okEnv "B64").2.2.1 "in.png" "out.webp" "webp" 80 (Or.inr (Or.inr rfl)),
   (convert_format_rules okEnv "B64").2.2.2.1 "in.png" "out.png" "png" (some 80) (by decide)⟩

/-- A trace whose cleanup list equals its assigned list, with the assigned
list empty or a pair of distinct paths, deletes each assigned path exactly
once. -/
theorem trace_count_of (t : Trace) (h1 : t.cleanupAttempts = t.assignedPaths)
    (h2 : t.assignedPaths = [] ∨ ∃ i o, t.assignedPaths = [i, o] ∧ i ≠ o) :
    t.cleanupAttempts = t.assignedPaths ∧
    ∀ p ∈ t.assignedPaths, t.cleanupAttempts.count p = 1 := by
  refine ⟨h1, ?_⟩
  intro p hp
  rw [h1]
  rcases h2 with h2 | ⟨i, o, h2, hio⟩
  · rw [h2] at hp
    simp at hp
  · rw [h2] at hp ⊢
    exact count_pair_eq_one hio p hp

/-- Every exit path of the rotate handler cleans exactly the assigned
paths, which are empty or two distinct paths. -/
theorem rotateHandler_cleanup_shape (env : ExecEnv) (uuid : String)
    (saveErr readErr : Option String) (file : Option UploadedFile)
    (operation value format responseMode : Option String) (outB64 : String) :
    (rotateHandler env uuid saveErr readErr file operation value format responseMode outB64).cleanupAttempts =
      (rotateHandler env uuid saveErr readErr file operation value format responseMode outB64).assignedPaths ∧
    ((rotateHandler env uuid saveErr readErr file operation value format responseMode outB64).assignedPaths = [] ∨
      ∃ i o, (rotateHandler env uuid saveErr readErr file operation value format responseMode outB64).assignedPaths = [i, o] ∧ i ≠ o) := by
  unfold rotateHandler
  split
  · exact ⟨rfl, Or.inl rfl⟩
  next f heq =>
    have hext := getExtension_of_validMime _ (validateFile_ok_mime heq)
    have hio : generateTempPath uuid (getExtension f.mimetype) ≠
        replaceLastExt (generateTempPath uuid (getExtension f.mimetype))
          ("_" ++ jsToLower (operation.getD ("")) ++ "." ++ getExtension (format.getD (""))) := by
      apply generateTempPath_ne uuid _ _ hext
      rfl
    repeat
      first
      | exact ⟨rfl, Or.inl rfl⟩
      | exact ⟨rfl, Or.inr ⟨_, _, rfl, hio⟩⟩
      | dsimp only
      | split

/-- Every exit path of the resize handler cleans exactly the assigned
paths, which are empty or two distinct paths. -/
theorem resizeHandler_cleanup_shape (env : ExecEnv) (uuid : String)
    (saveErr readErr : Option String) (file : Option UploadedFile)
    (width height format responseMode : Option String) (outB64 : String) :
    (resizeHandler env uuid saveErr readErr file width height format responseMode outB64).cleanupAttempts =
      (resizeHandler env uuid saveErr readErr file width height format responseMode outB64).assignedPaths ∧
    ((resizeHandler env uuid saveErr readErr file width height format responseMode outB64).assignedPaths = [] ∨
      ∃ i o, (resizeHandler env uuid saveErr readErr file width height format responseMode outB64).assignedPaths = [i, o] ∧ i ≠ o) := by
  unfold resizeHandler
  split
  · exact ⟨rfl, Or.inl rfl⟩
  next f heq =>
    have hext := getExtension_of_validMime _ (validateFile_ok_mime heq)
    have hio : generateTempPath uuid (getExtension f.mimetype) ≠
        replaceLastExt (generateTempPath uuid (getExtension f.mimetype))
          ("_resized." ++ getExtension (format.getD (""))) := by
      apply generateTempPath_ne uuid _ _ hext
      rfl
    repeat
      first
      | exact ⟨rfl, Or.inl rfl⟩
      | exact ⟨rfl, Or.inr ⟨_, _, rfl, hio⟩⟩
      | dsimp only
      | split

/-- Every exit path of the convert handler cleans exactly the assigned
paths, which are empty or two distinct paths. -/
theorem convertHandler_cleanup_shape (env : ExecEnv) (uuid : String)
    (saveErr readErr : Option String) (file : Option UploadedFile)
    (format quality : Option String) (outB64 : String) :
    (convertHandler env uuid saveErr readErr file format quality outB64).cleanupAttempts =
      (convertHandler env uuid saveErr readErr file format quality outB64).assignedPaths ∧
    ((convertHandler env uuid saveErr readErr file format quality outB64).assignedPaths = [] ∨
      ∃ i o, (convertHandler env uuid saveErr readErr file format quality outB64).assignedPaths = [i, o] ∧ i ≠ o) := by
  unfold convertHandler
  split
  · exact ⟨rfl, Or.inl rfl⟩
  next f heq =>
    have hext := getExtension_of_validMime _ (validateFile_ok_mime heq)
    have hio : generateTempPath uuid (getExtension f.mimetype) ≠
        replaceLastExt (generateTempPath uuid (getExtension f.mimetype))
          ("_converted." ++ (if jsToLower (format.getD ("")) = "jpeg" then "jpg" else jsToLower (format.getD ("")))) := by
      apply generateTempPath_ne uuid _ _ hext
      rfl
    repeat
      first
      | exact ⟨rfl, Or.inl rfl⟩
      | exact ⟨rfl, Or.inr ⟨_, _, rfl, hio⟩⟩
      | dsimp only
      | split

/-- Every exit path of the optimize handler cleans exactly the assigned
paths, which are empty or two distinct paths. -/
theorem optimizeHandler_cleanup_shape (env : ExecEnv) (uuid : String)
    (saveErr readErr : Option String) (file : Option UploadedFile)
    (quality format responseMode : Option String) (outB64 : String) :
    (optimizeHandler env uuid saveErr readErr file quality format responseMode outB64).cleanupAttempts =
      (optimizeHandler env uuid saveErr readErr file quality format responseMode outB64).assignedPaths ∧
    ((optimizeHandler env uuid saveErr readErr file quality format responseMode outB64).assignedPaths = [] ∨
      ∃ i o, (optimizeHandler env uuid saveErr readErr file quality format responseMode outB64).assignedPaths = [i, o] ∧ i ≠ o) := by
  unfold optimizeHandler
  split
  · exact ⟨rfl, Or.inl rfl⟩
  next f heq =>
    have hext := getExtension_of_validMime _ (validateFile_ok_mime heq)
    have hio : generateTempPath uuid (getExtension f.mimetype) ≠
        replaceLastExt (generateTempPath uuid (getExtension f.mimetype))
          ("_optimized." ++ getExtension (format.getD (""))) := by
      apply generateTempPath_ne uuid _ _ hext
      rfl
    repeat
      first
      | exact ⟨rfl, Or.inl rfl⟩
      | exact ⟨rfl, Or.inr ⟨_, _, rfl, hio⟩⟩
      | dsimp only
      | split

/-- Every exit path of the crop handler cleans exactly the assigned paths,
which are empty or two distinct paths. -/
theorem cropHandler_cleanup_shape (env : ExecEnv) (uuid : String)
    (saveErr readErr : Option String) (file : Option UploadedFile)
    (mode format width height x y responseMode : Option String) (outB64 : String) :
    (cropHandler env uuid saveErr readErr file mode format width height x y responseMode outB64).cleanupAttempts =
      (cropHandler env uuid saveErr readErr file mode format width height x y responseMode outB64).assignedPaths ∧
    ((cropHandler env uuid saveErr readErr file mode format width height x y responseMode outB64).assignedPaths = [] ∨
      ∃ i o, (cropHandler env uuid saveErr readErr file mode format width height x y responseMode outB64).assignedPaths = [i, o] ∧ i ≠ o) := by
  unfold cropHandler
  split
  · exact ⟨rfl, Or.inl rfl⟩
  next f heq =>
    have hext := getExtension_of_validMime _ (validateFile_ok_mime heq)
    have hio : generateTempPath uuid (getExtension f.mimetype) ≠
        replaceLastExt (generateTempPath uuid (getExtension f.mimetype))
          ("_cropped." ++ getExtension (format.getD (""))) := by
      apply generateTempPath_ne uuid _ _ hext
      rfl
    repeat
      first
      | exact ⟨rfl, Or.inl rfl⟩
      | exact ⟨rfl, Or.inr ⟨_, _, rfl, hio⟩⟩
      | dsimp only
      | split

/-- Every exit path of the terminal handler cleans exactly the assigned
paths, which are empty or two distinct paths. -/
theorem terminalHandler_cleanup_shape (env : ExecEnv) (uuid : String)
    (saveErr readErr : Option String) (file : Option UploadedFile)
    (responseMode : Option String) (outB64 : String) :
    (terminalHandler env uuid saveErr readErr file responseMode outB64).cleanupAttempts =
      (terminalHandler env uuid saveErr readErr file responseMode outB64).assignedPaths ∧
    ((terminalHandler env uuid saveErr readErr file responseMode outB64).assignedPaths = [] ∨
      ∃ i o, (terminalHandler env uuid saveErr readErr file responseMode outB64).assignedPaths = [i, o] ∧ i ≠ o) := by
  unfold terminalHandler
  split
  · exact ⟨rfl, Or.inl rfl⟩
  next f heq =>
    have hext := getExtension_of_validMime _ (validateFile_ok_mime heq)
    have hio : generateTempPath uuid (getExtension f.mimetype) ≠
        replaceLastExt (generateTempPath uuid (getExtension f.mimetype)) ("_out.png") := by
      apply generateTempPath_ne uuid _ _ hext
      rfl
    repeat
      first
      | exact ⟨rfl, Or.inl rfl⟩
      | exact ⟨rfl, Or.inr ⟨_, _, rfl, hio⟩⟩
      | dsimp only
      | split

/-- C4: for every request to any of the six modelled handlers and on every
exit path — validation failure, temp-file write failure, transform failure,
invalid responseMode, output-read failure, or success in either response
mode — every temp-file path that was actually assigned has its deletion
attempted exactly once, never zero times and never twice, and no deletion
is attempted for a path that was not assigned (the unlink attempts are
exactly the assigned paths). -/
theorem handlers_cleanup_exactly_once :
    (∀ (env : ExecEnv) (uuid : String) (saveErr readErr : Option String)
        (file : Option UploadedFile) (operation value format responseMode : Option String)
        (outB64 : String),
      (rotateHandler env uuid saveErr readErr file operation value format responseMode outB64).cleanupAttempts =
        (rotateHandler env uuid saveErr readErr file operation value format responseMode outB64).assignedPaths ∧
      ∀ p ∈ (rotateHandler env uuid saveErr readErr file operation value format responseMode outB64).assignedPaths,
        ((rotateHandler env uuid saveErr readErr file operation value format responseMode outB64).cleanupAttempts).count p = 1) ∧
    (∀ (env : ExecEnv) (uuid : String) (saveErr readErr : Option String)
        (file : Option UploadedFile) (width height format responseMode : Option String)
        (outB64 : String),
      (resizeHandler env uuid saveErr readErr file width height format responseMode outB64).cleanupAttempts =
        (resizeHandler env uuid saveErr readErr file width height format responseMode outB64).assignedPaths ∧
      ∀ p ∈ (resizeHandler env uuid saveErr readErr file width height format responseMode outB64).assignedPaths,
        ((resizeHandler env uuid saveErr readErr file width height format responseMode outB64).cleanupAttempts).count p = 1) ∧
    (∀ (env : ExecEnv) (uuid : String) (saveErr readErr : Option String)
        (file : Option UploadedFile) (format quality : Option String) (outB64 : String),
      (convertHandler env uuid saveErr readErr file format quality outB64).cleanupAttempts =
        (convertHandler env uuid saveErr readErr file format quality outB64).assignedPaths ∧
      ∀ p ∈ (convertHandler env uuid saveErr readErr file format quality outB64).assignedPaths,
        ((convertHandler env uuid saveErr readErr file format quality outB64).cleanupAttempts).count p = 1) ∧
    (∀ (env : ExecEnv) (uuid : String) (saveErr readErr : Option String)
        (file : Option UploadedFile) (quality format responseMode : Option String)
        (outB64 : String),
      (optimizeHandler env uuid saveErr readErr file quality format responseMode outB64).cleanupAttempts =
        (optimizeHandler env uuid saveErr readErr file quality format responseMode outB64).assignedPaths ∧
      ∀ p ∈ (optimizeHandler env uuid saveErr readErr file quality format responseMode outB64).assignedPaths,
        ((optimizeHandler env uuid saveErr readErr file quality format responseMode outB64).cleanupAttempts).count p = 1) ∧
    (∀ (env : ExecEnv) (uuid : String) (saveErr readErr : Option String)
        (file : Option UploadedFile) (mode format width height x y responseMode : Option String)
        (outB64 : String),
      (cropHandler env uuid saveErr readErr file mode format width height x y responseMode outB64).cleanupAttempts =
        (cropHandler env uuid saveErr readErr file mode format width height x y responseMode outB64).assignedPaths ∧
      ∀ p ∈ (cropHandler env uuid saveErr readErr file mode format width height x y responseMode outB64).assignedPaths,
        ((cropHandler env uuid saveErr readErr file mode format width height x y responseMode outB64).cleanupAttempts).count p = 1) ∧
    (∀ (env : ExecEnv) (uuid : String) (saveErr readErr : Option String)
        (file : Option UploadedFile) (responseMode : Option String) (outB64 : String),
      (terminalHandler env uuid saveErr readErr file responseMode outB64).cleanupAttempts =
        (terminalHandler env uuid saveErr readErr file responseMode outB64).assignedPaths ∧
      ∀ p ∈ (terminalHandler env uuid saveErr readErr file responseMode outB64).assignedPaths,
        ((terminalHandler env uuid saveErr readErr file responseMode outB64).cleanupAttempts).count p = 1) :=
  ⟨fun env uuid se re f op v fm rm b =>
    trace_count_of _ (rotateHandler_cleanup_shape env uuid se re f op v fm rm b).1
      (rotateHandler_cleanup_shape env uuid se re f op v fm rm b).2,
   fun env uuid se re f w h fm rm b =>
    trace_count_of _ (resizeHandler_cleanup_shape env uuid se re f w h fm rm b).1
      (resizeHandler_cleanup_shape env uuid se re f w h fm rm b).2,
   fun env uuid se re f fm q b =>
    trace_count_of _ (convertHandler_cleanup_shape env uuid se re f fm q b).1
      (convertHandler_cleanup_shape env uuid se re f fm q b).2,
   fun env uuid se re f q fm rm b =>
    trace_count_of _ (optimizeHandler_cleanup_shape env uuid se re f q fm rm b).1
      (optimizeHandler_cleanup_shape env uuid se re f q fm rm b).2,
   fun env uuid se re f m fm w h x y rm b =>
    trace_count_of _ (cropHandler_cleanup_shape env uuid se re f m fm w h x y rm b).1
      (cropHandler_cleanup_shape env uuid se re f m fm w h x y rm b).2,
   fun env uuid se re f rm b =>
    trace_count_of _ (terminalHandler_cleanup_shape env uuid se re f rm b).1
      (terminalHandler_cleanup_shape env uuid se re f rm b).2⟩

/-- Witness for `handlers_cleanup_exactly_once`: on a concrete successful
rotate request and a concrete failing one, each assigned temp path is
deleted exactly once. -/
theorem handlers_cleanup_exactly_once_witness :
    (rotateHandler okEnv "u1" none none (some pngFile) (some ("rotate")) (some ("90"))
        (some ("png")) none "B64").cleanupAttempts.count "tmpfiles/u1.png" = 1 ∧
    (rotateHandler failEnv "u1" none none (some pngFile) (some ("rotate")) (some ("90"))
        (some ("png")) none "B64").cleanupAttempts.count "tmpfiles/u1_rotate.png" = 1 := by
  constructor
  · exact (handlers_cleanup_exactly_once.1 okEnv "u1" none none (some pngFile) (some ("rotate"))
      (some ("90")) (some ("png")) none "B64").2 "tmpfiles/u1.png" (by decide)
  · exact (handlers_cleanup_exactly_once.1 failEnv "u1" none none (some pngFile) (some ("rotate"))
      (some ("90")) (some ("png")) none "B64").2 "tmpfiles/u1_rotate.png" (by decide)
